import Mathlib

/-!
Shallow embedding of the WASM image-resizing kernel in
`src/wasm-resize/src/lib.rs` (the only source file of the repository).

Modelling conventions:
* Machine integers are `Nat`/`Int` with explicit bounds.  The target is
  wasm32, so `usize` is 32 bits wide; `u32` values are `Nat`s below `2^32`,
  `u64` intermediates are checked against `2^64`.
* Pointers are modelled as their numeric addresses (`Nat`); the null
  pointer is address `0`.
* Byte buffers are modelled as total functions `Nat → Nat` together with an
  explicit length.  Every slice read and write of the Rust code goes
  through `bufGet` / `bufSetChecked`, which return `none` exactly when the
  index is out of bounds.  A resize computation hence evaluates to `none`
  iff some slice access of the code would be out of bounds.
* The `f32` arithmetic of the resamplers is modelled with exact rational
  arithmetic (`ℚ`).  On every input domain appearing in the theorems below
  (scale ratios equal to 1, operands below `2^17`, interpolation weights
  `0`) the compiled `f32` computation is exact, so the rational model and
  the machine computation agree there; all bounds-safety facts are
  established through the clamping (`min` / `clamp`) that follows the
  floating-point step in the source and therefore hold for every value of
  the floating-point expression.
* The thread-local `LAST_ERROR_CODE` cell is threaded explicitly: functions
  take the current cell value and return the new one.  `set_last_error`
  immediately followed by `return code` in the source is modelled as
  returning the pair of the code and the new cell value.
-/

set_option maxHeartbeats 1000000

/-- Status code `RESIZE_OK` (lib.rs line 15). -/
def RESIZE_OK : Int := 0

/-- Status code `RESIZE_ERR_NULL_PTR` (lib.rs line 16). -/
def RESIZE_ERR_NULL_PTR : Int := 1

/-- Status code `RESIZE_ERR_INVALID_SIZE` (lib.rs line 17). -/
def RESIZE_ERR_INVALID_SIZE : Int := 2

/-- Status code `RESIZE_ERR_OVERFLOW` (lib.rs line 18). -/
def RESIZE_ERR_OVERFLOW : Int := 3

/-- Status code `RESIZE_ERR_MEMORY` (lib.rs line 19). -/
def RESIZE_ERR_MEMORY : Int := 4

/-- Status code `RESIZE_ERR_ALIGNMENT` (lib.rs line 20). -/
def RESIZE_ERR_ALIGNMENT : Int := 5

/-- Status code `RESIZE_ERR_OVERLAP` (lib.rs line 21). -/
def RESIZE_ERR_OVERLAP : Int := 6

/-- Largest `u32` value (also the largest wasm32 `usize` value). -/
def U32_MAX : Nat := 4294967295

/-- Modulus of `usize` arithmetic on wasm32 (`2^32`). -/
def USIZE_MOD : Nat := 4294967296

/-- Modulus of `u64` arithmetic (`2^64`). -/
def U64_MOD : Nat := 18446744073709551616

/-- Constant `MAX_DIMENSION` (lib.rs line 190). -/
def MAX_DIMENSION : Nat := 65535

/-- Constant `MAX_PIXELS` (lib.rs line 197). -/
def MAX_PIXELS : Nat := 268435456

/-- Byte buffers: index ↦ byte value. -/
abbrev Buf := Nat → Nat

/-- Pointwise update of a buffer (one byte store). -/
def bufSet (b : Buf) (i v : Nat) : Buf := fun j => if j = i then v else b j

/-- Instrumented slice read: `none` iff the index is outside `[0, len)`. -/
def bufGet (len : Nat) (b : Buf) (i : Nat) : Option Nat :=
  if i < len then some (b i) else none

/-- Instrumented slice write: `none` iff the index is outside `[0, len)`. -/
def bufSetChecked (len : Nat) (b : Buf) (i v : Nat) : Option Buf :=
  if i < len then some (bufSet b i v) else none

/-- Model of `u64::checked_mul` on `Nat` operands. -/
def checkedMul64 (a b : Nat) : Option Nat :=
  if a * b < U64_MOD then some (a * b) else none

/-- wasm32 `usize::checked_mul`. -/
def checkedMul32 (a b : Nat) : Option Nat :=
  if a * b < USIZE_MOD then some (a * b) else none

/-- wasm32 `usize::checked_add`. -/
def checkedAdd32 (a b : Nat) : Option Nat :=
  if a + b < USIZE_MOD then some (a + b) else none

/-- wasm32 `usize::saturating_add` / `u32::saturating_add`. -/
def satAdd32 (a b : Nat) : Nat := min (a + b) U32_MAX

/-- Model of `u32::saturating_mul`. -/
def satMul32 (a b : Nat) : Nat := min (a * b) U32_MAX

/-- Wrapping `u32` decrement, used for the `src_w - 1` / `src_h - 1`
clamp bounds of the nearest-neighbor resampler (release-mode `u32`
subtraction wraps; for every dimension in `[1, u32::MAX]` this is the
ordinary predecessor). -/
def wsub1 (n : Nat) : Nat := (n + U32_MAX) % USIZE_MOD

/-- The `as u32` cast of an `f32` value (modelled on `ℚ`): truncation toward
zero saturating to `[0, u32::MAX]`.  Negative values saturate to `0`, so
floor followed by `Int.toNat` coincides with truncation toward zero. -/
def f32toU32 (q : ℚ) : Nat := min (Int.toNat (Int.floor q)) U32_MAX

/-- The `as u8` cast of an `f32` value: truncation toward zero saturating to
`[0, 255]`. -/
def f32toU8trunc (q : ℚ) : Nat := min (Int.toNat (Int.floor q)) 255

/-- The `u32` → `i32` `as`-cast (two's-complement reinterpretation). -/
def u32toI32 (n : Nat) : Int :=
  if n < 2147483648 then (n : Int) else (n : Int) - 4294967296

/-- The `f32` → `i32` `as`-cast of a floored value: saturating. -/
def i32sat (z : Int) : Int := max (-2147483648) (min 2147483647 z)

/-- Model of `validate_params` (lib.rs lines 125-237).  Returns the validation
result (safe byte sizes of the two buffers, or the error code) paired with
the value of the thread-local `LAST_ERROR_CODE` cell after the call.  The
function takes no buffer argument: validation performs no buffer access.
The `src_size_u64 as usize` narrowing of lines 220/222/232-233 is the
wrapping `u64` → 32-bit `usize` cast, i.e. reduction modulo `2^32`. -/
def validate_params (srcPtr srcW srcH dstPtr dstW dstH : Nat) (_cell : Int) :
    Except Int (Nat × Nat) × Int :=
  if srcPtr = 0 ∨ dstPtr = 0 then
    (Except.error RESIZE_ERR_NULL_PTR, RESIZE_ERR_NULL_PTR)
  else if srcPtr % 4 ≠ 0 then
    (Except.error RESIZE_ERR_ALIGNMENT, RESIZE_ERR_ALIGNMENT)
  else if dstPtr % 4 ≠ 0 then
    (Except.error RESIZE_ERR_ALIGNMENT, RESIZE_ERR_ALIGNMENT)
  else if srcW = 0 ∨ srcH = 0 ∨ dstW = 0 ∨ dstH = 0 then
    (Except.error RESIZE_ERR_INVALID_SIZE, RESIZE_ERR_INVALID_SIZE)
  else
    match (checkedMul64 srcW srcH).bind (fun x => checkedMul64 x 4) with
    | none => (Except.error RESIZE_ERR_OVERFLOW, RESIZE_ERR_OVERFLOW)
    | some srcSize64 =>
      match (checkedMul64 dstW dstH).bind (fun x => checkedMul64 x 4) with
      | none => (Except.error RESIZE_ERR_OVERFLOW, RESIZE_ERR_OVERFLOW)
      | some dstSize64 =>
        if srcW > MAX_DIMENSION ∨ srcH > MAX_DIMENSION ∨
            dstW > MAX_DIMENSION ∨ dstH > MAX_DIMENSION then
          (Except.error RESIZE_ERR_INVALID_SIZE, RESIZE_ERR_INVALID_SIZE)
        else if srcW * srcH > MAX_PIXELS ∨ dstW * dstH > MAX_PIXELS then
          (Except.error RESIZE_ERR_INVALID_SIZE, RESIZE_ERR_INVALID_SIZE)
        else
          let srcEnd := satAdd32 srcPtr (srcSize64 % USIZE_MOD)
          let dstEnd := satAdd32 dstPtr (dstSize64 % USIZE_MOD)
          if srcPtr < dstEnd ∧ dstPtr < srcEnd then
            (Except.error RESIZE_ERR_OVERLAP, RESIZE_ERR_OVERLAP)
          else
            (Except.ok (srcSize64 % USIZE_MOD, dstSize64 % USIZE_MOD), RESIZE_OK)

/-- Model of `should_use_nearest_neighbor` (lib.rs lines 286-330). -/
def should_use_nearest_neighbor (srcW srcH dstW dstH : Nat) : Bool :=
  let dx := dstW < srcW
  let dy := dstH < srcH
  if ¬dx ∧ ¬dy then false
  else if (dx ∧ satMul32 dstW 8 < srcW) ∨ (dy ∧ satMul32 dstH 8 < srcH) then true
  else
    let srcPixels := srcW * srcH
    let threshold : Nat :=
      if srcPixels < 1000000 then 8
      else if srcPixels < 10000000 then 4
      else 2
    if (dx ∧ satMul32 dstW threshold < srcW) ∨ (dy ∧ satMul32 dstH threshold < srcH) then
      true
    else false

/-- Null-terminated byte string of an ASCII message. -/
def strBytes (s : String) : List Nat := s.data.map (fun c => c.toNat) ++ [0]

/-- Model of `get_last_error` (lib.rs lines 99-121): the null-terminated message
selected by the current value of the diagnostic cell. -/
def get_last_error (cell : Int) : List Nat :=
  if cell = RESIZE_OK then strBytes ("OK")
  else if cell = RESIZE_ERR_NULL_PTR then strBytes ("NULL pointer")
  else if cell = RESIZE_ERR_INVALID_SIZE then strBytes ("Invalid size or dimensions")
  else if cell = RESIZE_ERR_OVERFLOW then strBytes ("Overflow in size calculation")
  else if cell = RESIZE_ERR_MEMORY then strBytes ("Memory error")
  else if cell = RESIZE_ERR_ALIGNMENT then strBytes ("Pointer alignment error")
  else if cell = RESIZE_ERR_OVERLAP then strBytes ("Memory regions overlap")
  else strBytes ("Unknown error")

/-- Model of `alloc_memory` (lib.rs lines 51-78).  The global allocator is an
oracle `allocFn` (returning `0` for allocation failure); zero-filling the
returned block is not observable here.  `Layout::from_size_align(size, 1)`
fails exactly when `size` exceeds `isize::MAX`.  The result is the
returned pointer paired with the diagnostic cell after the call. -/
def alloc_memory (allocFn : Nat → Nat) (size : Nat) (cell : Int) : Nat × Int :=
  if size = 0 then (0, RESIZE_ERR_INVALID_SIZE)
  else if 2147483647 < size then (0, RESIZE_ERR_MEMORY)
  else
    let p := allocFn size
    if p = 0 then (0, RESIZE_ERR_MEMORY) else (p, cell)

/-- Result of one iteration / of a whole pixel loop: `none` marks an
out-of-bounds slice access (instrumentation, see `bufGet`); otherwise the
loop either finished normally (`Except.ok ()`) or aborted with an error
code, together with the destination buffer and the diagnostic cell. -/
abbrev LoopRes := Option (Except Int Unit × Buf × Int)

/-- Counting `for` loop: `loopN step n` runs `step 0`, `step 1`, …,
`step (n-1)` in order, stopping at the first abort or instrumented
out-of-bounds access.  This is the translation of the `for x in 0..n`
loops of the resamplers. -/
def loopN (step : Nat → Buf → Int → LoopRes) : Nat → Buf → Int → LoopRes
  | 0, dst, cell => some (Except.ok (), dst, cell)
  | n + 1, dst, cell =>
    match loopN step n dst cell with
    | some (Except.ok _, dst2, cell2) => step n dst2 cell2
    | other => other

/-- X-direction LUT of the nearest-neighbor resampler (lib.rs 364-386):
per destination column the byte offset of the sampled source column. -/
def nearestXIndices (srcW dstW : Nat) : List Nat :=
  (List.range dstW).map (fun (x : Nat) =>
    let srcX := f32toU32 (((x : ℚ) + 1/2) * ((srcW : ℚ) / (dstW : ℚ)))
    let srcX2 := min srcX (wsub1 srcW)
    (srcX2 * 4) % USIZE_MOD)

/-- Guarded 4-byte pixel copy of the nearest-neighbor inner loop
(lib.rs 441-450): if the enhanced bounds check fails the pixel is skipped
(the destination is returned unchanged); otherwise 4 bytes are copied. -/
def nearestCopyPixel (srcLen dstLen : Nat) (src : Buf) (srcIdx dstIdx : Nat)
    (dst : Buf) : Option Buf :=
  if satAdd32 srcIdx 3 < srcLen ∧ satAdd32 dstIdx 3 < dstLen then
    if srcIdx < srcLen ∧ dstIdx < dstLen then
      match bufGet srcLen src srcIdx, bufGet srcLen src (srcIdx + 1),
          bufGet srcLen src (srcIdx + 2), bufGet srcLen src (srcIdx + 3) with
      | some b0, some b1, some b2, some b3 =>
        (bufSetChecked dstLen dst dstIdx b0).bind fun d0 =>
        (bufSetChecked dstLen d0 (dstIdx + 1) b1).bind fun d1 =>
        (bufSetChecked dstLen d1 (dstIdx + 2) b2).bind fun d2 =>
        bufSetChecked dstLen d2 (dstIdx + 3) b3
      | _, _, _, _ => none
    else some dst
  else some dst

/-- Body of the nearest-neighbor inner loop for destination column `x`
(lib.rs 412-450): LUT bounds check, checked offset arithmetic, then the
guarded 4-byte copy. -/
def nearestColStep (srcLen dstLen : Nat) (src : Buf) (xIndices : List Nat)
    (dstW y srcYOff : Nat) (x : Nat) (dst : Buf) (cell : Int) : LoopRes :=
  if xIndices.length ≤ x then
    some (Except.error RESIZE_ERR_INVALID_SIZE, dst, RESIZE_ERR_INVALID_SIZE)
  else
    match xIndices.get? x with
    | none => none
    | some lut =>
      match checkedAdd32 srcYOff lut with
      | none => some (Except.error RESIZE_ERR_OVERFLOW, dst, RESIZE_ERR_OVERFLOW)
      | some srcIdx =>
        match ((checkedMul32 y dstW).bind (fun a => checkedAdd32 a x)).bind
            (fun a => checkedMul32 a 4) with
        | none => some (Except.error RESIZE_ERR_OVERFLOW, dst, RESIZE_ERR_OVERFLOW)
        | some dstIdx =>
          match nearestCopyPixel srcLen dstLen src srcIdx dstIdx dst with
          | none => none
          | some dst2 => some (Except.ok (), dst2, cell)

/-- Remainder of a nearest-neighbor row once the source row byte offset is
known (lib.rs 406-451): the defensive row-offset bound check, then the
column loop.  An out-of-range row offset aborts the whole call with
`RESIZE_ERR_INVALID_SIZE`. -/
def nearestRowBody (srcLen dstLen : Nat) (src : Buf) (xIndices : List Nat)
    (dstW y srcYOff : Nat) (dst : Buf) (cell : Int) : LoopRes :=
  if srcLen ≤ srcYOff then
    some (Except.error RESIZE_ERR_INVALID_SIZE, dst, RESIZE_ERR_INVALID_SIZE)
  else
    loopN (nearestColStep srcLen dstLen src xIndices dstW y srcYOff) dstW dst cell

/-- Body of the nearest-neighbor outer loop for destination row `y`
(lib.rs 390-451): source row selection with clamping, checked row-offset
arithmetic, then `nearestRowBody`. -/
def nearestRowStep (srcLen dstLen : Nat) (src : Buf) (xIndices : List Nat)
    (srcW srcH dstW dstH : Nat) (y : Nat) (dst : Buf) (cell : Int) : LoopRes :=
  let srcY := f32toU32 (((y : ℚ) + 1/2) * ((srcH : ℚ) / (dstH : ℚ)))
  let srcY2 := min srcY (wsub1 srcH)
  match (checkedMul32 srcY2 srcW).bind (fun a => checkedMul32 a 4) with
  | none => some (Except.error RESIZE_ERR_OVERFLOW, dst, RESIZE_ERR_OVERFLOW)
  | some srcYOff => nearestRowBody srcLen dstLen src xIndices dstW y srcYOff dst cell

/-- Loop part of `resize_rgba_nearest` operating on the two slices of the
validated byte lengths (lib.rs 364-455). -/
def nearestCore (srcW srcH dstW dstH srcLen dstLen : Nat) (src dst : Buf)
    (cell : Int) : Option (Int × Buf × Int) :=
  let xIndices := nearestXIndices srcW dstW
  match loopN (nearestRowStep srcLen dstLen src xIndices srcW srcH dstW dstH)
      dstH dst cell with
  | none => none
  | some (Except.ok _, dst2, cell2) => some (RESIZE_OK, dst2, cell2)
  | some (Except.error c, dst2, cell2) => some (c, dst2, cell2)

/-- Model of `resize_rgba_nearest` (lib.rs 335-456): validation, slice creation
(always of exactly the validated lengths, so it never fails), then the
sampling loops.  The result is `(status code, destination buffer,
diagnostic cell)`, or `none` for an instrumented out-of-bounds access. -/
def resize_rgba_nearest (srcPtr srcW srcH dstPtr dstW dstH : Nat)
    (src dst : Buf) (cell : Int) : Option (Int × Buf × Int) :=
  match validate_params srcPtr srcW srcH dstPtr dstW dstH cell with
  | (Except.error c, cell2) => some (c, dst, cell2)
  | (Except.ok (srcSize, dstSize), cell2) =>
    nearestCore srcW srcH dstW dstH srcSize dstSize src dst cell2

/-- One RGBA pixel. -/
structure Px where
  r : Nat
  g : Nat
  b : Nat
  a : Nat
  deriving DecidableEq

/-- The transparent black pixel `[0, 0, 0, 0]`. -/
def pxZero : Px := ⟨0, 0, 0, 0⟩

/-- Final part of `get_pixel_safe` (lib.rs 653-664): the last defensive
position check, then four byte reads. -/
def readPx (srcLen : Nat) (src : Buf) (pos : Nat) : Option Px :=
  if srcLen ≤ pos then some pxZero
  else
    match bufGet srcLen src pos, bufGet srcLen src (pos + 1),
        bufGet srcLen src (pos + 2), bufGet srcLen src (pos + 3) with
    | some a, some b, some c, some d => some ⟨a, b, c, d⟩
    | _, _, _, _ => none

/-- Model of `get_pixel_safe` (lib.rs 631-665): checked position arithmetic,
falling back to the transparent pixel on overflow; if the position does
not leave room for 4 bytes it is clamped to the last complete pixel when
the buffer holds at least one pixel, and the transparent pixel is
returned when the buffer is shorter than 4 bytes. -/
def get_pixel_safe (srcLen : Nat) (src : Buf) (offset idx : Nat) : Option Px :=
  match checkedAdd32 offset idx with
  | none => some pxZero
  | some pos0 =>
    if srcLen ≤ satAdd32 pos0 3 then
      if 4 ≤ srcLen then readPx srcLen src (srcLen - 4)
      else some pxZero
    else readPx srcLen src pos0

/-- Model of `lerp` (lib.rs 674-677): single-precision linear interpolation with a
clamp to `[0, 255]` and truncation to `u8`. -/
def lerp (a b : Nat) (t : ℚ) : Nat :=
  f32toU8trunc (min (max ((a : ℚ) * (1 - t) + (b : ℚ) * t) 0) 255)

/-- Channel-wise `lerp` of two pixels. -/
def lerpPx (p q : Px) (t : ℚ) : Px :=
  ⟨lerp p.r q.r t, lerp p.g q.g t, lerp p.b q.b t, lerp p.a q.a t⟩

/-- X-direction `x0` byte-offset LUT of the bilinear resampler
(lib.rs 556-568). -/
def bilinearX0 (srcW dstW : Nat) : List Nat :=
  (List.range dstW).map (fun (x : Nat) =>
    let srcX : ℚ := ((x : ℚ) + 1/2) * ((srcW : ℚ) / (dstW : ℚ)) - 1/2
    let x0 : Int := i32sat (Int.floor srcX)
    (Int.toNat (min (max x0 0) (u32toI32 srcW - 1)) * 4) % USIZE_MOD)

/-- X-direction `x1` byte-offset LUT of the bilinear resampler
(lib.rs 556-568). -/
def bilinearX1 (srcW dstW : Nat) : List Nat :=
  (List.range dstW).map (fun (x : Nat) =>
    let srcX : ℚ := ((x : ℚ) + 1/2) * ((srcW : ℚ) / (dstW : ℚ)) - 1/2
    let x0 : Int := i32sat (Int.floor srcX)
    let x1 : Int := min (x0 + 1) (u32toI32 srcW - 1)
    (Int.toNat (min (max x1 0) (u32toI32 srcW - 1)) * 4) % USIZE_MOD)

/-- X-direction interpolation-weight LUT of the bilinear resampler
(lib.rs 556-568). -/
def bilinearFx (srcW dstW : Nat) : List ℚ :=
  (List.range dstW).map (fun (x : Nat) =>
    let srcX : ℚ := ((x : ℚ) + 1/2) * ((srcW : ℚ) / (dstW : ℚ)) - 1/2
    let x0 : Int := i32sat (Int.floor srcX)
    min (max (srcX - (x0 : ℚ)) 0) 1)

/-- Body of the bilinear inner loop for destination column `x`
(lib.rs 611-723): LUT bounds checks, the four bounds-checked pixel
fetches, horizontal and vertical interpolation, checked destination
offset arithmetic and the guarded 4-byte write. -/
def bilinearColStep (srcLen dstLen : Nat) (src : Buf)
    (lx0 lx1 : List Nat) (lfx : List ℚ) (dstW y y0Off y1Off : Nat) (fy : ℚ)
    (x : Nat) (dst : Buf) (cell : Int) : LoopRes :=
  if lx0.length ≤ x ∨ lx1.length ≤ x ∨ lfx.length ≤ x then
    some (Except.error RESIZE_ERR_INVALID_SIZE, dst, RESIZE_ERR_INVALID_SIZE)
  else
    match lx0.get? x, lx1.get? x, lfx.get? x with
    | some x0c, some x1c, some fx =>
      match get_pixel_safe srcLen src y0Off x0c, get_pixel_safe srcLen src y0Off x1c,
          get_pixel_safe srcLen src y1Off x0c, get_pixel_safe srcLen src y1Off x1c with
      | some p00, some p10, some p01, some p11 =>
        let c0 := lerpPx p00 p10 fx
        let c1 := lerpPx p01 p11 fx
        let res := lerpPx c0 c1 fy
        match ((checkedMul32 y dstW).bind (fun a => checkedAdd32 a x)).bind
            (fun a => checkedMul32 a 4) with
        | none => some (Except.error RESIZE_ERR_OVERFLOW, dst, RESIZE_ERR_OVERFLOW)
        | some dstIdx =>
          if satAdd32 dstIdx 3 < dstLen ∧ dstIdx < dstLen then
            match (bufSetChecked dstLen dst dstIdx res.r).bind (fun d0 =>
                (bufSetChecked dstLen d0 (dstIdx + 1) res.g).bind (fun d1 =>
                (bufSetChecked dstLen d1 (dstIdx + 2) res.b).bind (fun d2 =>
                bufSetChecked dstLen d2 (dstIdx + 3) res.a))) with
            | none => none
            | some dst2 => some (Except.ok (), dst2, cell)
          else some (Except.ok (), dst, cell)
      | _, _, _, _ => none
    | _, _, _ => none

/-- Body of the bilinear outer loop for destination row `y`
(lib.rs 571-724): Y-coordinate mapping with clamping, checked row-offset
arithmetic, defensive row-offset bound checks, then the column loop. -/
def bilinearRowStep (srcLen dstLen : Nat) (src : Buf)
    (lx0 lx1 : List Nat) (lfx : List ℚ) (srcW srcH dstW dstH : Nat)
    (y : Nat) (dst : Buf) (cell : Int) : LoopRes :=
  let srcY : ℚ := ((y : ℚ) + 1/2) * ((srcH : ℚ) / (dstH : ℚ)) - 1/2
  let y0 : Int := i32sat (Int.floor srcY)
  let y1 : Int := min (y0 + 1) (u32toI32 srcH - 1)
  let fy : ℚ := min (max (srcY - (y0 : ℚ)) 0) 1
  let y0c : Nat := Int.toNat (min (max y0 0) (u32toI32 srcH - 1))
  let y1c : Nat := Int.toNat (min (max y1 0) (u32toI32 srcH - 1))
  match (checkedMul32 y0c srcW).bind (fun a => checkedMul32 a 4) with
  | none => some (Except.error RESIZE_ERR_OVERFLOW, dst, RESIZE_ERR_OVERFLOW)
  | some y0Off =>
    match (checkedMul32 y1c srcW).bind (fun a => checkedMul32 a 4) with
    | none => some (Except.error RESIZE_ERR_OVERFLOW, dst, RESIZE_ERR_OVERFLOW)
    | some y1Off =>
      if srcLen ≤ y0Off ∨ srcLen ≤ y1Off then
        some (Except.error RESIZE_ERR_INVALID_SIZE, dst, RESIZE_ERR_INVALID_SIZE)
      else
        loopN (bilinearColStep srcLen dstLen src lx0 lx1 lfx dstW y y0Off y1Off fy)
          dstW dst cell

/-- Loop part of the bilinear path of `resize_rgba` operating on the two
slices of the validated byte lengths (lib.rs 513-729). -/
def bilinearCore (srcW srcH dstW dstH srcLen dstLen : Nat) (src dst : Buf)
    (cell : Int) : Option (Int × Buf × Int) :=
  let lx0 := bilinearX0 srcW dstW
  let lx1 := bilinearX1 srcW dstW
  let lfx := bilinearFx srcW dstW
  match loopN (bilinearRowStep srcLen dstLen src lx0 lx1 lfx srcW srcH dstW dstH)
      dstH dst cell with
  | none => none
  | some (Except.ok _, dst2, cell2) => some (RESIZE_OK, dst2, cell2)
  | some (Except.error c, dst2, cell2) => some (c, dst2, cell2)

/-- Model of `resize_rgba` (lib.rs 479-730): validation, slice creation (always of
exactly the validated lengths, so it never fails), algorithm selection,
then either delegation to `resize_rgba_nearest` (which re-validates) or
the bilinear loops. -/
def resize_rgba (srcPtr srcW srcH dstPtr dstW dstH : Nat)
    (src dst : Buf) (cell : Int) : Option (Int × Buf × Int) :=
  match validate_params srcPtr srcW srcH dstPtr dstW dstH cell with
  | (Except.error c, cell2) => some (c, dst, cell2)
  | (Except.ok (srcSize, dstSize), cell2) =>
    if should_use_nearest_neighbor srcW srcH dstW dstH then
      resize_rgba_nearest srcPtr srcW srcH dstPtr dstW dstH src dst cell2
    else
      bilinearCore srcW srcH dstW dstH srcSize dstSize src dst cell2

/-- Algorithm-selection policy transcribed from the specification text
(spec section 4.2), for comparison with `should_use_nearest_neighbor`:
bilinear whenever the destination is not smaller than the source in
either axis; forced nearest when some downscaling axis exceeds 8×
(saturating multiplication); otherwise nearest iff some downscaling axis
exceeds the pixel-count-dependent threshold. -/
def selectorSpec (srcW srcH dstW dstH : Nat) : Bool :=
  if dstW ≥ srcW ∧ dstH ≥ srcH then false
  else if (dstW < srcW ∧ satMul32 dstW 8 < srcW) ∨
      (dstH < srcH ∧ satMul32 dstH 8 < srcH) then true
  else
    let threshold : Nat :=
      if srcW * srcH < 1000000 then 8
      else if srcW * srcH < 10000000 then 4
      else 2
    decide ((dstW < srcW ∧ dstW * threshold < srcW) ∨
      (dstH < srcH ∧ dstH * threshold < srcH))

/-- Buffer obtained from `d` by overwriting the byte range `[lo, hi)` with
the corresponding bytes of `tgt` (used to state what a pixel loop wrote). -/
def copyInterval (lo hi : Nat) (tgt d : Buf) : Buf :=
  fun j => if lo ≤ j ∧ j < hi then tgt j else d j

/-!
Theorems.  Shared helper lemmas come first; the claim theorems (named
after the claims they settle) only ever use the shared lemmas, never each
other.
-/

/-- The value left in the diagnostic cell by validation is the failure
code on failure and `RESIZE_OK` on success. -/
theorem validate_params_snd (sp sw sh dp dw dh : Nat) (cell : Int) :
    (validate_params sp sw sh dp dw dh cell).2 =
      (match (validate_params sp sw sh dp dw dh cell).1 with
        | Except.error c => c
        | Except.ok _ => RESIZE_OK) := by
  unfold validate_params
  repeat' (first | split | dsimp only)
  all_goals first | rfl | simp_all

/-- Whenever validation fails, the failure code is exactly the value
latched into the diagnostic cell. -/
theorem validate_params_error_cell {sp sw sh dp dw dh : Nat} {cell c : Int}
    (h : (validate_params sp sw sh dp dw dh cell).1 = Except.error c) :
    (validate_params sp sw sh dp dw dh cell).2 = c := by
  rw [validate_params_snd, h]

/-- Whenever validation succeeds, the diagnostic cell is cleared to
`RESIZE_OK`. -/
theorem validate_params_ok_cell {sp sw sh dp dw dh : Nat} {cell : Int}
    {sz : Nat × Nat}
    (h : (validate_params sp sw sh dp dw dh cell).1 = Except.ok sz) :
    (validate_params sp sw sh dp dw dh cell).2 = RESIZE_OK := by
  rw [validate_params_snd, h]

/-- Reduction of a successful `u64` checked multiplication. -/
theorem checkedMul64_pos {a b : Nat} (h : a * b < U64_MOD) :
    checkedMul64 a b = some (a * b) := by
  unfold checkedMul64
  rw [if_pos h]

/-- Reduction of a successful wasm32 `usize` checked multiplication. -/
theorem checkedMul32_pos {a b : Nat} (h : a * b < USIZE_MOD) :
    checkedMul32 a b = some (a * b) := by
  unfold checkedMul32
  rw [if_pos h]

/-- Reduction of a successful wasm32 `usize` checked addition. -/
theorem checkedAdd32_pos {a b : Nat} (h : a + b < USIZE_MOD) :
    checkedAdd32 a b = some (a + b) := by
  unfold checkedAdd32
  rw [if_pos h]

/-- Saturating addition below the saturation point is plain addition. -/
theorem satAdd32_small {a b : Nat} (h : a + b ≤ U32_MAX) : satAdd32 a b = a + b := by
  unfold satAdd32
  omega

/-- Characterization of successful validation: under the documented input
contract the validator returns the two byte sizes and clears the cell. -/
theorem validate_params_ok {sp sw sh dp dw dh : Nat} (cell : Int)
    (hsp : sp ≠ 0) (hdp : dp ≠ 0) (hsa : sp % 4 = 0) (hda : dp % 4 = 0)
    (hsw1 : 1 ≤ sw) (hsh1 : 1 ≤ sh) (hdw1 : 1 ≤ dw) (hdh1 : 1 ≤ dh)
    (hsw : sw ≤ MAX_DIMENSION) (hsh : sh ≤ MAX_DIMENSION)
    (hdw : dw ≤ MAX_DIMENSION) (hdh : dh ≤ MAX_DIMENSION)
    (hpixS : sw * sh ≤ MAX_PIXELS) (hpixD : dw * dh ≤ MAX_PIXELS)
    (hov : ¬(sp < satAdd32 dp (dw * dh * 4) ∧ dp < satAdd32 sp (sw * sh * 4))) :
    validate_params sp sw sh dp dw dh cell =
      (Except.ok (sw * sh * 4, dw * dh * 4), RESIZE_OK) := by
  unfold MAX_PIXELS at hpixS hpixD
  have hcs : (checkedMul64 sw sh).bind (fun x => checkedMul64 x 4) =
      some (sw * sh * 4) := by
    rw [checkedMul64_pos (by unfold U64_MOD; omega), Option.some_bind]
    exact checkedMul64_pos (by unfold U64_MOD; omega)
  have hcd : (checkedMul64 dw dh).bind (fun x => checkedMul64 x 4) =
      some (dw * dh * 4) := by
    rw [checkedMul64_pos (by unfold U64_MOD; omega), Option.some_bind]
    exact checkedMul64_pos (by unfold U64_MOD; omega)
  have hms : sw * sh * 4 % USIZE_MOD = sw * sh * 4 := by
    unfold USIZE_MOD
    omega
  have hmd : dw * dh * 4 % USIZE_MOD = dw * dh * 4 := by
    unfold USIZE_MOD
    omega
  unfold validate_params
  rw [if_neg (by omega)]
  rw [if_neg (by omega)]
  rw [if_neg (by omega)]
  rw [if_neg (by omega)]
  rw [hcs, hcd]
  dsimp only
  rw [if_neg (by unfold MAX_DIMENSION at hsw hsh hdw hdh ⊢; omega)]
  rw [if_neg (by unfold MAX_PIXELS; omega)]
  rw [hms, hmd]
  rw [if_neg hov]

/-- Null-pointer failure of validation (first check). -/
theorem validate_null_of {sp sw sh dp dw dh : Nat} (cell : Int)
    (h : sp = 0 ∨ dp = 0) :
    validate_params sp sw sh dp dw dh cell =
      (Except.error RESIZE_ERR_NULL_PTR, RESIZE_ERR_NULL_PTR) := by
  unfold validate_params
  rw [if_pos h]

/-- Alignment failure of validation (second check). -/
theorem validate_align_of {sp sw sh dp dw dh : Nat} (cell : Int)
    (hsp : sp ≠ 0) (hdp : dp ≠ 0) (h : sp % 4 ≠ 0 ∨ dp % 4 ≠ 0) :
    validate_params sp sw sh dp dw dh cell =
      (Except.error RESIZE_ERR_ALIGNMENT, RESIZE_ERR_ALIGNMENT) := by
  unfold validate_params
  rw [if_neg (by omega)]
  by_cases hA : sp % 4 ≠ 0
  · rw [if_pos hA]
  · rw [if_neg hA, if_pos (by omega)]

/-- Zero-dimension failure of validation (third check). -/
theorem validate_zero_of {sp sw sh dp dw dh : Nat} (cell : Int)
    (hsp : sp ≠ 0) (hdp : dp ≠ 0) (hsa : sp % 4 = 0) (hda : dp % 4 = 0)
    (h : sw = 0 ∨ sh = 0 ∨ dw = 0 ∨ dh = 0) :
    validate_params sp sw sh dp dw dh cell =
      (Except.error RESIZE_ERR_INVALID_SIZE, RESIZE_ERR_INVALID_SIZE) := by
  unfold validate_params
  rw [if_neg (by omega), if_neg (by omega), if_neg (by omega), if_pos h]

/-- Size-overflow failure of validation (fourth check): the `u64` checked
computation `w * h * 4` fails for one of the two buffers. -/
theorem validate_overflow_of {sp sw sh dp dw dh : Nat} (cell : Int)
    (hsp : sp ≠ 0) (hdp : dp ≠ 0) (hsa : sp % 4 = 0) (hda : dp % 4 = 0)
    (hsw : sw ≠ 0) (hsh : sh ≠ 0) (hdw : dw ≠ 0) (hdh : dh ≠ 0)
    (h : U64_MOD ≤ sw * sh * 4 ∨ U64_MOD ≤ dw * dh * 4) :
    validate_params sp sw sh dp dw dh cell =
      (Except.error RESIZE_ERR_OVERFLOW, RESIZE_ERR_OVERFLOW) := by
  unfold validate_params
  rw [if_neg (by omega), if_neg (by omega), if_neg (by omega), if_neg (by omega)]
  by_cases h1 : U64_MOD ≤ sw * sh * 4
  · have hnone : (checkedMul64 sw sh).bind (fun x => checkedMul64 x 4) = none := by
      by_cases h2 : sw * sh < U64_MOD
      · rw [checkedMul64_pos h2, Option.some_bind]
        unfold checkedMul64
        rw [if_neg (by omega)]
      · unfold checkedMul64
        rw [if_neg h2]
        rfl
    rw [hnone]
  · have h2 : U64_MOD ≤ dw * dh * 4 := by omega
    have hsome : (checkedMul64 sw sh).bind (fun x => checkedMul64 x 4) =
        some (sw * sh * 4) := by
      rw [checkedMul64_pos (by omega), Option.some_bind]
      exact checkedMul64_pos (by omega)
    have hnone : (checkedMul64 dw dh).bind (fun x => checkedMul64 x 4) = none := by
      by_cases h3 : dw * dh < U64_MOD
      · rw [checkedMul64_pos h3, Option.some_bind]
        unfold checkedMul64
        rw [if_neg (by omega)]
      · unfold checkedMul64
        rw [if_neg h3]
        rfl
    rw [hsome, hnone]

/-- Dimension-limit / pixel-count-limit failure of validation (fifth
check). -/
theorem validate_limit_of {sp sw sh dp dw dh : Nat} (cell : Int)
    (hsp : sp ≠ 0) (hdp : dp ≠ 0) (hsa : sp % 4 = 0) (hda : dp % 4 = 0)
    (hsw : sw ≠ 0) (hsh : sh ≠ 0) (hdw : dw ≠ 0) (hdh : dh ≠ 0)
    (hs64 : sw * sh * 4 < U64_MOD) (hd64 : dw * dh * 4 < U64_MOD)
    (h : MAX_DIMENSION < sw ∨ MAX_DIMENSION < sh ∨ MAX_DIMENSION < dw ∨
      MAX_DIMENSION < dh ∨ MAX_PIXELS < sw * sh ∨ MAX_PIXELS < dw * dh) :
    validate_params sp sw sh dp dw dh cell =
      (Except.error RESIZE_ERR_INVALID_SIZE, RESIZE_ERR_INVALID_SIZE) := by
  unfold validate_params
  rw [if_neg (by omega), if_neg (by omega), if_neg (by omega), if_neg (by omega)]
  have hcs : (checkedMul64 sw sh).bind (fun x => checkedMul64 x 4) =
      some (sw * sh * 4) := by
    rw [checkedMul64_pos (by omega), Option.some_bind]
    exact checkedMul64_pos (by omega)
  have hcd : (checkedMul64 dw dh).bind (fun x => checkedMul64 x 4) =
      some (dw * dh * 4) := by
    rw [checkedMul64_pos (by omega), Option.some_bind]
    exact checkedMul64_pos (by omega)
  rw [hcs, hcd]
  dsimp only
  by_cases hd : MAX_DIMENSION < sw ∨ MAX_DIMENSION < sh ∨ MAX_DIMENSION < dw ∨
      MAX_DIMENSION < dh
  · rw [if_pos hd]
  · rw [if_neg hd, if_pos (by omega)]

/-- Overlap failure of validation (sixth and last check). -/
theorem validate_overlap_of {sp sw sh dp dw dh : Nat} (cell : Int)
    (hsp : sp ≠ 0) (hdp : dp ≠ 0) (hsa : sp % 4 = 0) (hda : dp % 4 = 0)
    (hsw1 : 1 ≤ sw) (hsh1 : 1 ≤ sh) (hdw1 : 1 ≤ dw) (hdh1 : 1 ≤ dh)
    (hsw : sw ≤ MAX_DIMENSION) (hsh : sh ≤ MAX_DIMENSION)
    (hdw : dw ≤ MAX_DIMENSION) (hdh : dh ≤ MAX_DIMENSION)
    (hpixS : sw * sh ≤ MAX_PIXELS) (hpixD : dw * dh ≤ MAX_PIXELS)
    (h : sp < satAdd32 dp (dw * dh * 4) ∧ dp < satAdd32 sp (sw * sh * 4)) :
    validate_params sp sw sh dp dw dh cell =
      (Except.error RESIZE_ERR_OVERLAP, RESIZE_ERR_OVERLAP) := by
  unfold MAX_PIXELS at hpixS hpixD
  unfold validate_params
  rw [if_neg (by omega), if_neg (by omega), if_neg (by omega), if_neg (by omega)]
  have hcs : (checkedMul64 sw sh).bind (fun x => checkedMul64 x 4) =
      some (sw * sh * 4) := by
    rw [checkedMul64_pos (by unfold U64_MOD; omega), Option.some_bind]
    exact checkedMul64_pos (by unfold U64_MOD; omega)
  have hcd : (checkedMul64 dw dh).bind (fun x => checkedMul64 x 4) =
      some (dw * dh * 4) := by
    rw [checkedMul64_pos (by unfold U64_MOD; omega), Option.some_bind]
    exact checkedMul64_pos (by unfold U64_MOD; omega)
  rw [hcs, hcd]
  dsimp only
  rw [if_neg (by unfold MAX_DIMENSION at hsw hsh hdw hdh ⊢; omega)]
  rw [if_neg (by unfold MAX_PIXELS; omega)]
  rw [Nat.mod_eq_of_lt (by unfold USIZE_MOD; omega),
    Nat.mod_eq_of_lt (by unfold USIZE_MOD; omega)]
  rw [if_pos h]

/-- C7: the validation checks of `validate_params` run in a fixed order
with first-failure-wins short-circuiting — null pointers, then alignment,
then zero dimensions, then size overflow, then dimension/pixel-count
limits, then overlap; in particular a null source or destination pointer
yields `NullPointer` regardless of any other violation also present. -/
theorem c7_validation_order (sp sw sh dp dw dh : Nat) (cell : Int) :
    ((sp = 0 ∨ dp = 0) →
      validate_params sp sw sh dp dw dh cell =
        (Except.error RESIZE_ERR_NULL_PTR, RESIZE_ERR_NULL_PTR)) ∧
    (sp ≠ 0 → dp ≠ 0 → (sp % 4 ≠ 0 ∨ dp % 4 ≠ 0) →
      validate_params sp sw sh dp dw dh cell =
        (Except.error RESIZE_ERR_ALIGNMENT, RESIZE_ERR_ALIGNMENT)) ∧
    (sp ≠ 0 → dp ≠ 0 → sp % 4 = 0 → dp % 4 = 0 →
      (sw = 0 ∨ sh = 0 ∨ dw = 0 ∨ dh = 0) →
      validate_params sp sw sh dp dw dh cell =
        (Except.error RESIZE_ERR_INVALID_SIZE, RESIZE_ERR_INVALID_SIZE)) ∧
    (sp ≠ 0 → dp ≠ 0 → sp % 4 = 0 → dp % 4 = 0 →
      sw ≠ 0 → sh ≠ 0 → dw ≠ 0 → dh ≠ 0 →
      (U64_MOD ≤ sw * sh * 4 ∨ U64_MOD ≤ dw * dh * 4) →
      validate_params sp sw sh dp dw dh cell =
        (Except.error RESIZE_ERR_OVERFLOW, RESIZE_ERR_OVERFLOW)) ∧
    (sp ≠ 0 → dp ≠ 0 → sp % 4 = 0 → dp % 4 = 0 →
      sw ≠ 0 → sh ≠ 0 → dw ≠ 0 → dh ≠ 0 →
      sw * sh * 4 < U64_MOD → dw * dh * 4 < U64_MOD →
      (MAX_DIMENSION < sw ∨ MAX_DIMENSION < sh ∨ MAX_DIMENSION < dw ∨
        MAX_DIMENSION < dh ∨ MAX_PIXELS < sw * sh ∨ MAX_PIXELS < dw * dh) →
      validate_params sp sw sh dp dw dh cell =
        (Except.error RESIZE_ERR_INVALID_SIZE, RESIZE_ERR_INVALID_SIZE)) ∧
    (sp ≠ 0 → dp ≠ 0 → sp % 4 = 0 → dp % 4 = 0 →
      1 ≤ sw → 1 ≤ sh → 1 ≤ dw → 1 ≤ dh →
      sw ≤ MAX_DIMENSION → sh ≤ MAX_DIMENSION → dw ≤ MAX_DIMENSION →
      dh ≤ MAX_DIMENSION → sw * sh ≤ MAX_PIXELS → dw * dh ≤ MAX_PIXELS →
      (sp < satAdd32 dp (dw * dh * 4) ∧ dp < satAdd32 sp (sw * sh * 4)) →
      validate_params sp sw sh dp dw dh cell =
        (Except.error RESIZE_ERR_OVERLAP, RESIZE_ERR_OVERLAP)) := by
  refine ⟨?_, ?_, ?_, ?_, ?_, ?_⟩
  · exact fun h => validate_null_of cell h
  · exact fun h1 h2 h3 => validate_align_of cell h1 h2 h3
  · exact fun h1 h2 h3 h4 h5 => validate_zero_of cell h1 h2 h3 h4 h5
  · exact fun h1 h2 h3 h4 h5 h6 h7 h8 h9 =>
      validate_overflow_of cell h1 h2 h3 h4 h5 h6 h7 h8 h9
  · exact fun h1 h2 h3 h4 h5 h6 h7 h8 h9 h10 h11 =>
      validate_limit_of cell h1 h2 h3 h4 h5 h6 h7 h8 h9 h10 h11
  · exact fun h1 h2 h3 h4 h5 h6 h7 h8 h9 h10 h11 h12 h13 h14 h15 =>
      validate_overlap_of cell h1 h2 h3 h4 h5 h6 h7 h8 h9 h10 h11 h12 h13 h14 h15

/-- Witness for C7: a null source pointer combined with a zero dimension
and a misaligned destination still yields `NullPointer`; a concrete
instance of each later stage fires when the earlier ones pass. -/
theorem c7_validation_order_witness :
    validate_params 0 0 1 5 1 1 9 =
        (Except.error RESIZE_ERR_NULL_PTR, RESIZE_ERR_NULL_PTR) ∧
    validate_params 4 0 1 5 1 1 9 =
        (Except.error RESIZE_ERR_ALIGNMENT, RESIZE_ERR_ALIGNMENT) ∧
    validate_params 4 0 1 8 1 1 9 =
        (Except.error RESIZE_ERR_INVALID_SIZE, RESIZE_ERR_INVALID_SIZE) ∧
    validate_params 4 4294967295 4294967295 8 1 1 9 =
        (Except.error RESIZE_ERR_OVERFLOW, RESIZE_ERR_OVERFLOW) ∧
    validate_params 4 65536 1 8 1 1 9 =
        (Except.error RESIZE_ERR_INVALID_SIZE, RESIZE_ERR_INVALID_SIZE) ∧
    validate_params 4 1 1 4 1 1 9 =
        (Except.error RESIZE_ERR_OVERLAP, RESIZE_ERR_OVERLAP) :=
  ⟨(c7_validation_order 0 0 1 5 1 1 9).1 (Or.inl rfl),
    (c7_validation_order 4 0 1 5 1 1 9).2.1 (by decide) (by decide) (by decide),
    (c7_validation_order 4 0 1 8 1 1 9).2.2.1 (by decide) (by decide) (by decide)
      (by decide) (by decide),
    (c7_validation_order 4 4294967295 4294967295 8 1 1 9).2.2.2.1 (by decide)
      (by decide) (by decide) (by decide) (by decide) (by decide) (by decide)
      (by decide) (by norm_num [U64_MOD]),
    (c7_validation_order 4 65536 1 8 1 1 9).2.2.2.2.1 (by decide) (by decide)
      (by decide) (by decide) (by decide) (by decide) (by decide) (by decide)
      (by norm_num [U64_MOD]) (by norm_num [U64_MOD]) (by norm_num [MAX_DIMENSION]),
    (c7_validation_order 4 1 1 4 1 1 9).2.2.2.2.2 (by decide) (by decide)
      (by decide) (by decide) (by decide) (by decide) (by decide) (by decide)
      (by decide) (by decide) (by decide) (by decide) (by decide) (by decide)
      (by decide)⟩

/-- Counterexample for C4: at width = height = 65535 (non-null, aligned
pointers) the product `65535 * 65535 * 4` does NOT overflow the 64-bit
checked computation, so validation reaches the pixel-count limit and
returns `InvalidSize` (2) — not the `Overflow` (3) the claim states. -/
theorem c4_counterexample :
    validate_params 4 65535 65535 8 1 1 0 =
      (Except.error RESIZE_ERR_INVALID_SIZE, RESIZE_ERR_INVALID_SIZE) ∧
    RESIZE_ERR_INVALID_SIZE ≠ RESIZE_ERR_OVERFLOW :=
  ⟨rfl, by decide⟩

/-- C4 (amended): validation reports `Overflow` (3) exactly for inputs
whose `w * h * 4` product overflows the 64-bit checked computation (which
requires dimensions near `u32::MAX`, e.g. width = height = 4294967295);
width = height = 65535 does not overflow 64-bit arithmetic and instead
fails the pixel-count limit with `InvalidSize` (2). -/
theorem c4_overflow_amended (sp sw sh dp dw dh : Nat) (cell : Int)
    (hsp : sp ≠ 0) (hdp : dp ≠ 0) (hsa : sp % 4 = 0) (hda : dp % 4 = 0)
    (hsw : sw ≠ 0) (hsh : sh ≠ 0) (hdw : dw ≠ 0) (hdh : dh ≠ 0)
    (hof : U64_MOD ≤ sw * sh * 4 ∨ U64_MOD ≤ dw * dh * 4) :
    validate_params sp sw sh dp dw dh cell =
      (Except.error RESIZE_ERR_OVERFLOW, RESIZE_ERR_OVERFLOW) :=
  validate_overflow_of cell hsp hdp hsa hda hsw hsh hdw hdh hof

/-- Witness for C4 (amended) at width = height = `u32::MAX`, whose byte
size overflows 64-bit arithmetic. -/
theorem c4_overflow_amended_witness :
    validate_params 4 4294967295 4294967295 8 1 1 0 =
      (Except.error RESIZE_ERR_OVERFLOW, RESIZE_ERR_OVERFLOW) :=
  c4_overflow_amended 4 4294967295 4294967295 8 1 1 0 (by decide) (by decide)
    (by decide) (by decide) (by decide) (by decide) (by decide) (by decide)
    (Or.inl (by norm_num [U64_MOD]))

/-- C8: whenever validation fails, both resize entry points return that
error code with the destination buffer byte-for-byte unchanged and the
failure code latched in the diagnostic cell; validation itself takes no
buffer argument (`validate_params` performs no buffer access on any
input), so no pixel buffer is read or written on any failing call. -/
theorem c8_error_leaves_dst (sp sw sh dp dw dh : Nat) (src dst : Buf)
    (cell c : Int)
    (h : (validate_params sp sw sh dp dw dh cell).1 = Except.error c) :
    resize_rgba_nearest sp sw sh dp dw dh src dst cell = some (c, dst, c) ∧
    resize_rgba sp sw sh dp dw dh src dst cell = some (c, dst, c) := by
  have h2 := validate_params_error_cell h
  have hp : validate_params sp sw sh dp dw dh cell = (Except.error c, c) := by
    have he : validate_params sp sw sh dp dw dh cell =
        ((validate_params sp sw sh dp dw dh cell).1,
          (validate_params sp sw sh dp dw dh cell).2) := rfl
    rw [he, h, h2]
  constructor
  · unfold resize_rgba_nearest
    rw [hp]
  · unfold resize_rgba
    rw [hp]

/-- Witness for C8: a zero source width (validation failure `InvalidSize`)
leaves a concrete destination buffer unchanged in both entry points. -/
theorem c8_error_leaves_dst_witness :
    resize_rgba_nearest 4 0 7 8 1 1 (fun _ => 3) (fun j => j) 5 =
      some (RESIZE_ERR_INVALID_SIZE, fun j => j, RESIZE_ERR_INVALID_SIZE) ∧
    resize_rgba 4 0 7 8 1 1 (fun _ => 3) (fun j => j) 5 =
      some (RESIZE_ERR_INVALID_SIZE, fun j => j, RESIZE_ERR_INVALID_SIZE) :=
  c8_error_leaves_dst 4 0 7 8 1 1 (fun _ => 3) (fun j => j) 5
    RESIZE_ERR_INVALID_SIZE rfl

/-- C10: `alloc_memory` with size 0 returns the null pointer and latches
`InvalidSize` (2) into the diagnostic cell; the result is the same for
every allocator oracle, i.e. the allocator is never consulted. -/
theorem c10_alloc_zero (allocFn : Nat → Nat) (cell : Int) :
    alloc_memory allocFn 0 cell = (0, RESIZE_ERR_INVALID_SIZE) := rfl

/-- C2: the algorithm selector is a pure function of the four dimensions
and agrees exactly with the specified policy — bilinear whenever the
destination is not smaller than the source in either axis; forced nearest
when some downscaling axis exceeds 8× (saturating multiplication);
otherwise nearest iff some downscaling axis exceeds the threshold 8, 4 or
2 chosen from the source pixel count (`< 10^6`, `< 10^7`, else). -/
theorem c2_selector_matches_spec (sw sh dw dh : Nat)
    (hsw : sw ≤ U32_MAX) (hsh : sh ≤ U32_MAX)
    (hdw : dw ≤ U32_MAX) (hdh : dh ≤ U32_MAX) :
    should_use_nearest_neighbor sw sh dw dh = selectorSpec sw sh dw dh := by
  unfold should_use_nearest_neighbor selectorSpec
  dsimp only
  unfold satMul32 U32_MAX at *
  split_ifs <;>
    first
      | rfl
      | omega
      | (rw [eq_comm, decide_eq_true_eq]; omega)
      | (rw [eq_comm, decide_eq_false_iff_not]; omega)

/-- Witness for C2 at the spec's concrete scenario (20000×20000 down to
100×100, forced nearest) and at a bilinear-selecting input. -/
theorem c2_selector_matches_spec_witness :
    should_use_nearest_neighbor 20000 20000 100 100 =
      selectorSpec 20000 20000 100 100 ∧
    should_use_nearest_neighbor 4 4 2 2 = selectorSpec 4 4 2 2 :=
  ⟨c2_selector_matches_spec 20000 20000 100 100 (by decide) (by decide)
      (by decide) (by decide),
    c2_selector_matches_spec 4 4 2 2 (by decide) (by decide) (by decide)
      (by decide)⟩

/-- A counting loop whose every step yields a value yields a value. -/
theorem loopN_isSome {step : Nat → Buf → Int → LoopRes}
    (hstep : ∀ i d c, (step i d c).isSome) :
    ∀ (n : Nat) (d : Buf) (c : Int), (loopN step n d c).isSome := by
  intro n
  induction n with
  | zero => intro d c; rfl
  | succ n ih =>
    intro d c
    have ihh := ih d c
    unfold loopN
    cases hl : loopN step n d c with
    | none => rw [hl] at ihh; simp at ihh
    | some r =>
      obtain ⟨st, d2, c2⟩ := r
      cases st with
      | ok u => exact hstep n d2 c2
      | error e => rfl

/-- If every loop step latches the abort code into the cell on abort and
leaves the cell unchanged otherwise, so does the whole loop. -/
theorem loopN_cell {step : Nat → Buf → Int → LoopRes}
    (hstep : ∀ i d c r, step i d c = some r →
      (∀ e, r.1 = Except.error e → r.2.2 = e) ∧
      (r.1 = Except.ok () → r.2.2 = c)) :
    ∀ (n : Nat) (d : Buf) (c : Int) (r : Except Int Unit × Buf × Int),
      loopN step n d c = some r →
        (∀ e, r.1 = Except.error e → r.2.2 = e) ∧
        (r.1 = Except.ok () → r.2.2 = c) := by
  intro n
  induction n with
  | zero =>
    intro d c r hr
    unfold loopN at hr
    injection hr with hr
    subst hr
    constructor
    · intro e he
      exact absurd he (by simp)
    · intro _
      rfl
  | succ n ih =>
    intro d c r hr
    unfold loopN at hr
    cases hl : loopN step n d c with
    | none => rw [hl] at hr; exact absurd hr (by simp)
    | some r2 =>
      rw [hl] at hr
      obtain ⟨st, d2, c2⟩ := r2
      cases st with
      | ok u =>
        have hc2 : c2 = c := (ih d c (Except.ok u, d2, c2) hl).2 (by cases u; rfl)
        subst hc2
        exact hstep n d2 c2 r hr
      | error e =>
        injection hr with hr
        subst hr
        constructor
        · intro e2 he2
          have : e = e2 := by
            have := congrArg (fun x => x) he2
            simpa using he2
          simpa [this] using (ih d c (Except.error e, d2, c2) hl).1 e rfl
        · intro habs
          exact absurd habs (by simp)

/-- Overwriting an empty byte range changes nothing. -/
theorem copyInterval_zero (a s0 : Nat) (tgt d : Buf) (h : s0 = 0) :
    copyInterval a (a + s0) tgt d = d := by
  funext j
  unfold copyInterval
  exact if_neg (by omega)

/-- Two adjacent interval overwrites merge. -/
theorem copyInterval_merge (a s n : Nat) (tgt d : Buf) :
    copyInterval (a + s * n) (a + s * n + s) tgt (copyInterval a (a + s * n) tgt d) =
      copyInterval a (a + s * (n + 1)) tgt d := by
  funext j
  unfold copyInterval
  have hs : s * (n + 1) = s * n + s := by ring
  split_ifs <;> first | rfl | omega

/-- A loop whose step `i` overwrites exactly the byte range
`[a + s*i, a + s*i + s)` with bytes of `tgt` overwrites `[a, a + s*n)`. -/
theorem loopN_interval {step : Nat → Buf → Int → LoopRes} (a s : Nat)
    (tgt : Buf) (n : Nat)
    (hstep : ∀ i d c, i < n →
      step i d c =
        some (Except.ok (), copyInterval (a + s * i) (a + s * i + s) tgt d, c)) :
    ∀ (d : Buf) (c : Int),
      loopN step n d c = some (Except.ok (), copyInterval a (a + s * n) tgt d, c) := by
  induction n with
  | zero =>
    intro d c
    unfold loopN
    rw [copyInterval_zero a (s * 0) tgt d (by ring)]
  | succ n ih =>
    intro d c
    unfold loopN
    rw [ih (fun i d2 c2 hi => hstep i d2 c2 (Nat.lt_succ_of_lt hi)) d c]
    dsimp only
    rw [hstep n _ c (Nat.lt_succ_self n)]
    rw [copyInterval_merge a s n tgt d]

/-- The guarded 4-byte copy never performs an out-of-bounds access: its
own guard is checked before every read and write. -/
theorem nearestCopyPixel_isSome (srcLen dstLen : Nat) (src : Buf)
    (srcIdx dstIdx : Nat) (dst : Buf)
    (hs : srcLen ≤ U32_MAX) (hd : dstLen ≤ U32_MAX) :
    (nearestCopyPixel srcLen dstLen src srcIdx dstIdx dst).isSome := by
  unfold U32_MAX at hs hd
  unfold nearestCopyPixel bufGet bufSetChecked satAdd32 U32_MAX
  split_ifs <;> first | rfl | omega

/-- The nearest-neighbor column body never performs an out-of-bounds
access. -/
theorem nearestColStep_isSome (srcLen dstLen : Nat) (src : Buf)
    (xIndices : List Nat) (dstW y srcYOff x : Nat) (dst : Buf) (cell : Int)
    (hs : srcLen ≤ U32_MAX) (hd : dstLen ≤ U32_MAX) :
    (nearestColStep srcLen dstLen src xIndices dstW y srcYOff x dst cell).isSome := by
  unfold nearestColStep
  split_ifs with h1
  · rfl
  · cases hg : xIndices.get? x with
    | none => exact absurd (List.get?_eq_none.mp hg) h1
    | some lut =>
      dsimp only
      cases hc : checkedAdd32 srcYOff lut with
      | none => rfl
      | some srcIdx =>
        dsimp only
        cases hm : ((checkedMul32 y dstW).bind (fun a => checkedAdd32 a x)).bind
            (fun a => checkedMul32 a 4) with
        | none => rfl
        | some dstIdx =>
          dsimp only
          have hcp := nearestCopyPixel_isSome srcLen dstLen src srcIdx dstIdx dst hs hd
          cases hcpv : nearestCopyPixel srcLen dstLen src srcIdx dstIdx dst with
          | none => rw [hcpv] at hcp; simp at hcp
          | some dst2 => rfl

/-- The nearest-neighbor row body never performs an out-of-bounds
access. -/
theorem nearestRowStep_isSome (srcLen dstLen : Nat) (src : Buf)
    (xIndices : List Nat) (srcW srcH dstW dstH y : Nat) (dst : Buf) (cell : Int)
    (hs : srcLen ≤ U32_MAX) (hd : dstLen ≤ U32_MAX) :
    (nearestRowStep srcLen dstLen src xIndices srcW srcH dstW dstH y dst cell).isSome := by
  unfold nearestRowStep
  dsimp only
  cases hm : (checkedMul32 (min (f32toU32 (((y : ℚ) + 1/2) * ((srcH : ℚ) / (dstH : ℚ))))
      (wsub1 srcH)) srcW).bind (fun a => checkedMul32 a 4) with
  | none => rfl
  | some srcYOff =>
    dsimp only
    unfold nearestRowBody
    split_ifs
    · rfl
    · exact loopN_isSome
        (fun i d c => nearestColStep_isSome srcLen dstLen src xIndices dstW y srcYOff i d c hs hd)
        dstW dst cell

/-- The nearest-neighbor loop core never performs an out-of-bounds
access. -/
theorem nearestCore_isSome (srcW srcH dstW dstH srcLen dstLen : Nat)
    (src dst : Buf) (cell : Int)
    (hs : srcLen ≤ U32_MAX) (hd : dstLen ≤ U32_MAX) :
    (nearestCore srcW srcH dstW dstH srcLen dstLen src dst cell).isSome := by
  unfold nearestCore
  dsimp only
  have hrows := loopN_isSome
    (fun i d c => nearestRowStep_isSome srcLen dstLen src (nearestXIndices srcW dstW)
      srcW srcH dstW dstH i d c hs hd) dstH dst cell
  cases hr : loopN (nearestRowStep srcLen dstLen src (nearestXIndices srcW dstW)
      srcW srcH dstW dstH) dstH dst cell with
  | none => rw [hr] at hrows; simp at hrows
  | some r =>
    obtain ⟨st, d2, c2⟩ := r
    cases st with
    | ok u => rfl
    | error e => rfl

/-- The byte sizes returned by successful validation are below `2^32`. -/
theorem validate_params_sizes_lt {sp sw sh dp dw dh : Nat} {cell : Int}
    {sz : Nat × Nat}
    (h : (validate_params sp sw sh dp dw dh cell).1 = Except.ok sz) :
    sz.1 ≤ U32_MAX ∧ sz.2 ≤ U32_MAX := by
  revert h
  unfold validate_params
  repeat' (first | split | dsimp only)
  all_goals intro h
  all_goals first
    | exact Except.noConfusion h
    | (injection h with h
       subst h
       constructor <;> (unfold USIZE_MOD U32_MAX; omega))

/-- Inversion of a successful checked addition. -/
theorem checkedAdd32_some_inv {a b p : Nat} (h : checkedAdd32 a b = some p) :
    p = a + b ∧ a + b < USIZE_MOD := by
  unfold checkedAdd32 at h
  split_ifs at h with hcond
  exact ⟨(Option.some.inj h).symm, hcond⟩

/-- Inversion of a successful checked multiplication. -/
theorem checkedMul32_some_inv {a b p : Nat} (h : checkedMul32 a b = some p) :
    p = a * b ∧ a * b < USIZE_MOD := by
  unfold checkedMul32 at h
  split_ifs at h with hcond
  exact ⟨(Option.some.inj h).symm, hcond⟩

/-- Reduction of an in-bounds instrumented write. -/
theorem bufSetChecked_pos {len : Nat} {i : Nat} (b : Buf) (v : Nat)
    (h : i < len) : bufSetChecked len b i v = some (bufSet b i v) := by
  unfold bufSetChecked
  rw [if_pos h]

/-- Reduction of an in-bounds instrumented read. -/
theorem bufGet_pos {len : Nat} {i : Nat} (b : Buf) (h : i < len) :
    bufGet len b i = some (b i) := by
  unfold bufGet
  rw [if_pos h]

/-- Function `resize_rgba_nearest` never performs an out-of-bounds slice access:
every read is inside `[0, src_w*src_h*4)` and every write inside
`[0, dst_w*dst_h*4)`. -/
theorem resize_rgba_nearest_isSome (sp sw sh dp dw dh : Nat)
    (src dst : Buf) (cell : Int) :
    (resize_rgba_nearest sp sw sh dp dw dh src dst cell).isSome := by
  unfold resize_rgba_nearest
  rcases hv : validate_params sp sw sh dp dw dh cell with ⟨r, c2⟩
  cases r with
  | error c => rfl
  | ok sz =>
    rcases sz with ⟨s, d⟩
    have hb := validate_params_sizes_lt
      (show (validate_params sp sw sh dp dw dh cell).1 = Except.ok (s, d) by rw [hv])
    exact nearestCore_isSome sw sh dw dh s d src dst c2 hb.1 hb.2

/-- Function `get_pixel_safe` never performs an out-of-bounds slice access. -/
theorem get_pixel_safe_isSome (srcLen : Nat) (src : Buf) (offset idx : Nat)
    (hs : srcLen ≤ U32_MAX) :
    (get_pixel_safe srcLen src offset idx).isSome := by
  unfold get_pixel_safe
  cases hc : checkedAdd32 offset idx with
  | none => rfl
  | some pos0 =>
    dsimp only
    unfold U32_MAX at hs
    unfold readPx bufGet satAdd32 U32_MAX
    split_ifs <;> first | rfl | omega

/-- The guarded 4-byte write chain of the bilinear inner loop succeeds
when its highest index is in bounds. -/
theorem bufSet4_isSome (dstLen : Nat) (dst : Buf) (i v0 v1 v2 v3 : Nat)
    (h : i + 3 < dstLen) :
    ((bufSetChecked dstLen dst i v0).bind (fun d0 =>
      (bufSetChecked dstLen d0 (i + 1) v1).bind (fun d1 =>
      (bufSetChecked dstLen d1 (i + 2) v2).bind (fun d2 =>
      bufSetChecked dstLen d2 (i + 3) v3)))).isSome := by
  rw [bufSetChecked_pos _ _ (by omega), Option.some_bind,
    bufSetChecked_pos _ _ (by omega), Option.some_bind,
    bufSetChecked_pos _ _ (by omega), Option.some_bind,
    bufSetChecked_pos _ _ (by omega)]
  rfl

/-- The bilinear column body never performs an out-of-bounds access. -/
theorem bilinearColStep_isSome (srcLen dstLen : Nat) (src : Buf)
    (lx0 lx1 : List Nat) (lfx : List ℚ) (dstW y y0Off y1Off : Nat) (fy : ℚ)
    (x : Nat) (dst : Buf) (cell : Int)
    (hs : srcLen ≤ U32_MAX) (hd : dstLen ≤ U32_MAX) :
    (bilinearColStep srcLen dstLen src lx0 lx1 lfx dstW y y0Off y1Off fy
      x dst cell).isSome := by
  unfold bilinearColStep
  split_ifs with h1
  · rfl
  · push_neg at h1
    cases hg0 : lx0.get? x with
    | none => exact absurd (List.get?_eq_none.mp hg0) (by omega)
    | some x0c =>
      cases hg1 : lx1.get? x with
      | none => exact absurd (List.get?_eq_none.mp hg1) (by omega)
      | some x1c =>
        cases hgf : lfx.get? x with
        | none => exact absurd (List.get?_eq_none.mp hgf) (by omega)
        | some fx =>
          dsimp only
          have hp00 := get_pixel_safe_isSome srcLen src y0Off x0c hs
          have hp10 := get_pixel_safe_isSome srcLen src y0Off x1c hs
          have hp01 := get_pixel_safe_isSome srcLen src y1Off x0c hs
          have hp11 := get_pixel_safe_isSome srcLen src y1Off x1c hs
          cases h00 : get_pixel_safe srcLen src y0Off x0c with
          | none => rw [h00] at hp00; simp at hp00
          | some p00 =>
            cases h10 : get_pixel_safe srcLen src y0Off x1c with
            | none => rw [h10] at hp10; simp at hp10
            | some p10 =>
              cases h01 : get_pixel_safe srcLen src y1Off x0c with
              | none => rw [h01] at hp01; simp at hp01
              | some p01 =>
                cases h11 : get_pixel_safe srcLen src y1Off x1c with
                | none => rw [h11] at hp11; simp at hp11
                | some p11 =>
                  dsimp only
                  cases hm : ((checkedMul32 y dstW).bind (fun a => checkedAdd32 a x)).bind
                      (fun a => checkedMul32 a 4) with
                  | none => rfl
                  | some dstIdx =>
                    dsimp only
                    split_ifs with h2
                    · have hw := bufSet4_isSome dstLen dst dstIdx
                        (lerpPx (lerpPx p00 p10 fx) (lerpPx p01 p11 fx) fy).r
                        (lerpPx (lerpPx p00 p10 fx) (lerpPx p01 p11 fx) fy).g
                        (lerpPx (lerpPx p00 p10 fx) (lerpPx p01 p11 fx) fy).b
                        (lerpPx (lerpPx p00 p10 fx) (lerpPx p01 p11 fx) fy).a
                        (by
                          obtain ⟨hg, _⟩ := h2
                          unfold satAdd32 U32_MAX at hg
                          unfold U32_MAX at hd
                          omega)
                      cases hwv : (bufSetChecked dstLen dst dstIdx
                          (lerpPx (lerpPx p00 p10 fx) (lerpPx p01 p11 fx) fy).r).bind
                          (fun d0 => (bufSetChecked dstLen d0 (dstIdx + 1)
                            (lerpPx (lerpPx p00 p10 fx) (lerpPx p01 p11 fx) fy).g).bind
                          (fun d1 => (bufSetChecked dstLen d1 (dstIdx + 2)
                            (lerpPx (lerpPx p00 p10 fx) (lerpPx p01 p11 fx) fy).b).bind
                          (fun d2 => bufSetChecked dstLen d2 (dstIdx + 3)
                            (lerpPx (lerpPx p00 p10 fx) (lerpPx p01 p11 fx) fy).a))) with
                      | none => rw [hwv] at hw; simp at hw
                      | some dst2 => rfl
                    · rfl

/-- The bilinear row body never performs an out-of-bounds access. -/
theorem bilinearRowStep_isSome (srcLen dstLen : Nat) (src : Buf)
    (lx0 lx1 : List Nat) (lfx : List ℚ) (srcW srcH dstW dstH y : Nat)
    (dst : Buf) (cell : Int)
    (hs : srcLen ≤ U32_MAX) (hd : dstLen ≤ U32_MAX) :
    (bilinearRowStep srcLen dstLen src lx0 lx1 lfx srcW srcH dstW dstH
      y dst cell).isSome := by
  unfold bilinearRowStep
  dsimp only
  repeat' split
  all_goals
    first
      | rfl
      | exact loopN_isSome
          (fun i d c => bilinearColStep_isSome srcLen dstLen src lx0 lx1 lfx
            dstW y _ _ _ i d c hs hd) dstW dst cell

/-- The bilinear loop core never performs an out-of-bounds access. -/
theorem bilinearCore_isSome (srcW srcH dstW dstH srcLen dstLen : Nat)
    (src dst : Buf) (cell : Int)
    (hs : srcLen ≤ U32_MAX) (hd : dstLen ≤ U32_MAX) :
    (bilinearCore srcW srcH dstW dstH srcLen dstLen src dst cell).isSome := by
  unfold bilinearCore
  dsimp only
  have hrows := loopN_isSome
    (fun i d c => bilinearRowStep_isSome srcLen dstLen src
      (bilinearX0 srcW dstW) (bilinearX1 srcW dstW) (bilinearFx srcW dstW)
      srcW srcH dstW dstH i d c hs hd) dstH dst cell
  cases hr : loopN (bilinearRowStep srcLen dstLen src (bilinearX0 srcW dstW)
      (bilinearX1 srcW dstW) (bilinearFx srcW dstW) srcW srcH dstW dstH)
      dstH dst cell with
  | none => rw [hr] at hrows; simp at hrows
  | some r =>
    obtain ⟨st, d2, c2⟩ := r
    cases st with
    | ok u => rfl
    | error e => rfl

/-- Function `resize_rgba` never performs an out-of-bounds slice access. -/
theorem resize_rgba_isSome (sp sw sh dp dw dh : Nat)
    (src dst : Buf) (cell : Int) :
    (resize_rgba sp sw sh dp dw dh src dst cell).isSome := by
  unfold resize_rgba
  rcases hv : validate_params sp sw sh dp dw dh cell with ⟨r, c2⟩
  cases r with
  | error c => rfl
  | ok sz =>
    rcases sz with ⟨s, d⟩
    have hb := validate_params_sizes_lt
      (show (validate_params sp sw sh dp dw dh cell).1 = Except.ok (s, d) by rw [hv])
    dsimp only
    split_ifs
    · exact resize_rgba_nearest_isSome sp sw sh dp dw dh src dst c2
    · exact bilinearCore_isSome sw sh dw dh s d src dst c2 hb.1 hb.2

/-- C1: for every input that passes validation (non-null, 4-byte-aligned
pointers, all four dimensions in `[1, 65535]`, pixel counts at most
`MAX_PIXELS`, non-overlapping byte ranges), neither `resize_rgba` nor
`resize_rgba_nearest` ever touches a byte index outside
`[0, src_w*src_h*4)` of the source or `[0, dst_w*dst_h*4)` of the
destination: every slice access of both resampling loops goes through the
instrumented `bufGet`/`bufSetChecked`, which yield `none` on any
out-of-bounds index, and the result is never `none`. -/
theorem c1_resize_in_bounds (sp sw sh dp dw dh : Nat) (src dst : Buf)
    (cell : Int)
    (hsp : sp ≠ 0) (hdp : dp ≠ 0) (hsa : sp % 4 = 0) (hda : dp % 4 = 0)
    (hsw1 : 1 ≤ sw) (hsh1 : 1 ≤ sh) (hdw1 : 1 ≤ dw) (hdh1 : 1 ≤ dh)
    (hsw : sw ≤ MAX_DIMENSION) (hsh : sh ≤ MAX_DIMENSION)
    (hdw : dw ≤ MAX_DIMENSION) (hdh : dh ≤ MAX_DIMENSION)
    (hpixS : sw * sh ≤ MAX_PIXELS) (hpixD : dw * dh ≤ MAX_PIXELS)
    (hov : ¬(sp < satAdd32 dp (dw * dh * 4) ∧ dp < satAdd32 sp (sw * sh * 4))) :
    (resize_rgba sp sw sh dp dw dh src dst cell).isSome = true ∧
    (resize_rgba_nearest sp sw sh dp dw dh src dst cell).isSome = true :=
  ⟨resize_rgba_isSome sp sw sh dp dw dh src dst cell,
    resize_rgba_nearest_isSome sp sw sh dp dw dh src dst cell⟩

/-- Witness for C1 at a concrete valid 2×2 → 1×1 resize. -/
theorem c1_resize_in_bounds_witness :
    (resize_rgba 4 2 2 32 1 1 (fun i => i) (fun _ => 0) 0).isSome = true ∧
    (resize_rgba_nearest 4 2 2 32 1 1 (fun i => i) (fun _ => 0) 0).isSome = true :=
  c1_resize_in_bounds 4 2 2 32 1 1 (fun i => i) (fun _ => 0) 0
    (by decide) (by decide) (by decide) (by decide) (by decide) (by decide)
    (by decide) (by decide) (by decide) (by decide) (by decide) (by decide)
    (by decide) (by decide) (by decide)

/-- Each nearest-neighbor column step latches its abort code into the
cell on abort and leaves the cell unchanged otherwise. -/
theorem nearestColStep_cell (srcLen dstLen : Nat) (src : Buf)
    (xIndices : List Nat) (dstW y srcYOff x : Nat) (dst : Buf) (cell : Int)
    (r : Except Int Unit × Buf × Int)
    (h : nearestColStep srcLen dstLen src xIndices dstW y srcYOff x dst cell = some r) :
    (∀ e, r.1 = Except.error e → r.2.2 = e) ∧
    (r.1 = Except.ok () → r.2.2 = cell) := by
  revert h
  unfold nearestColStep
  repeat' split
  all_goals intro h
  all_goals cases h
  all_goals exact ⟨fun e he => by simp_all, fun hok => by simp_all⟩

/-- Each nearest-neighbor row step latches its abort code into the cell
on abort and leaves the cell unchanged otherwise. -/
theorem nearestRowStep_cell (srcLen dstLen : Nat) (src : Buf)
    (xIndices : List Nat) (srcW srcH dstW dstH y : Nat) (dst : Buf) (cell : Int)
    (r : Except Int Unit × Buf × Int)
    (h : nearestRowStep srcLen dstLen src xIndices srcW srcH dstW dstH y dst cell
      = some r) :
    (∀ e, r.1 = Except.error e → r.2.2 = e) ∧
    (r.1 = Except.ok () → r.2.2 = cell) := by
  revert h
  unfold nearestRowStep nearestRowBody
  dsimp only
  repeat' split
  all_goals intro h
  all_goals first
    | exact loopN_cell
        (fun i d c r2 h2 => nearestColStep_cell srcLen dstLen src xIndices dstW y _ i d c r2 h2)
        dstW dst cell r h
    | (cases h
       exact ⟨fun e he => by simp_all, fun hok => by simp_all⟩)

/-- Function `resize_rgba_nearest` always returns the value it latched into the
diagnostic cell. -/
theorem resize_rgba_nearest_cell (sp sw sh dp dw dh : Nat) (src dst : Buf)
    (cell : Int) (r : Int × Buf × Int)
    (h : resize_rgba_nearest sp sw sh dp dw dh src dst cell = some r) :
    r.2.2 = r.1 := by
  revert h
  unfold resize_rgba_nearest
  rcases hv : validate_params sp sw sh dp dw dh cell with ⟨vr, c2⟩
  cases vr with
  | error c =>
    intro h
    injection h with h
    subst h
    have := validate_params_error_cell (c := c) (by rw [hv])
    rw [hv] at this
    exact this
  | ok sz =>
    rcases sz with ⟨s, d⟩
    have hc2 : c2 = RESIZE_OK := by
      have := validate_params_ok_cell
        (show (validate_params sp sw sh dp dw dh cell).1 = Except.ok (s, d) by rw [hv])
      rw [hv] at this
      exact this
    subst hc2
    unfold nearestCore
    dsimp only
    intro h
    revert h
    cases hr : loopN (nearestRowStep s d src (nearestXIndices sw dw) sw sh dw dh)
        dh dst RESIZE_OK with
    | none => intro h; exact absurd h (by simp)
    | some r2 =>
      obtain ⟨st, d2, cc⟩ := r2
      have hc := loopN_cell
        (fun i dd c r3 h3 => nearestRowStep_cell s d src (nearestXIndices sw dw)
          sw sh dw dh i dd c r3 h3) dh dst RESIZE_OK (st, d2, cc) hr
      cases st with
      | ok u =>
        intro h
        injection h with h
        subst h
        cases u
        exact hc.2 rfl
      | error e =>
        intro h
        injection h with h
        subst h
        exact hc.1 e rfl

/-- Each bilinear column step latches its abort code into the cell on
abort and leaves the cell unchanged otherwise. -/
theorem bilinearColStep_cell (srcLen dstLen : Nat) (src : Buf)
    (lx0 lx1 : List Nat) (lfx : List ℚ) (dstW y y0Off y1Off : Nat) (fy : ℚ)
    (x : Nat) (dst : Buf) (cell : Int) (r : Except Int Unit × Buf × Int)
    (h : bilinearColStep srcLen dstLen src lx0 lx1 lfx dstW y y0Off y1Off fy
      x dst cell = some r) :
    (∀ e, r.1 = Except.error e → r.2.2 = e) ∧
    (r.1 = Except.ok () → r.2.2 = cell) := by
  revert h
  unfold bilinearColStep
  dsimp only
  repeat' split
  all_goals intro h
  all_goals cases h
  all_goals exact ⟨fun e he => by simp_all, fun hok => by simp_all⟩

/-- Each bilinear row step latches its abort code into the cell on abort
and leaves the cell unchanged otherwise. -/
theorem bilinearRowStep_cell (srcLen dstLen : Nat) (src : Buf)
    (lx0 lx1 : List Nat) (lfx : List ℚ) (srcW srcH dstW dstH y : Nat)
    (dst : Buf) (cell : Int) (r : Except Int Unit × Buf × Int)
    (h : bilinearRowStep srcLen dstLen src lx0 lx1 lfx srcW srcH dstW dstH
      y dst cell = some r) :
    (∀ e, r.1 = Except.error e → r.2.2 = e) ∧
    (r.1 = Except.ok () → r.2.2 = cell) := by
  revert h
  unfold bilinearRowStep
  dsimp only
  repeat' split
  all_goals intro h
  all_goals first
    | exact loopN_cell
        (fun i d c r2 h2 => bilinearColStep_cell srcLen dstLen src lx0 lx1 lfx
          dstW y _ _ _ i d c r2 h2)
        dstW dst cell r h
    | (cases h
       exact ⟨fun e he => by simp_all, fun hok => by simp_all⟩)

/-- Function `resize_rgba` always returns the value it latched into the diagnostic
cell. -/
theorem resize_rgba_cell (sp sw sh dp dw dh : Nat) (src dst : Buf)
    (cell : Int) (r : Int × Buf × Int)
    (h : resize_rgba sp sw sh dp dw dh src dst cell = some r) :
    r.2.2 = r.1 := by
  revert h
  unfold resize_rgba
  rcases hv : validate_params sp sw sh dp dw dh cell with ⟨vr, c2⟩
  cases vr with
  | error c =>
    intro h
    injection h with h
    subst h
    have := validate_params_error_cell (c := c) (by rw [hv])
    rw [hv] at this
    exact this
  | ok sz =>
    rcases sz with ⟨s, d⟩
    have hc2 : c2 = RESIZE_OK := by
      have := validate_params_ok_cell
        (show (validate_params sp sw sh dp dw dh cell).1 = Except.ok (s, d) by rw [hv])
      rw [hv] at this
      exact this
    subst hc2
    dsimp only
    split_ifs
    · intro h
      exact resize_rgba_nearest_cell sp sw sh dp dw dh src dst RESIZE_OK r h
    · unfold bilinearCore
      dsimp only
      cases hr : loopN (bilinearRowStep s d src (bilinearX0 sw dw)
          (bilinearX1 sw dw) (bilinearFx sw dw) sw sh dw dh) dh dst RESIZE_OK with
      | none => intro h; exact absurd h (by simp)
      | some r2 =>
        obtain ⟨st, d2, cc⟩ := r2
        have hc := loopN_cell
          (fun i dd c r3 h3 => bilinearRowStep_cell s d src (bilinearX0 sw dw)
            (bilinearX1 sw dw) (bilinearFx sw dw) sw sh dw dh i dd c r3 h3)
          dh dst RESIZE_OK (st, d2, cc) hr
        cases st with
        | ok u =>
          intro h
          injection h with h
          subst h
          cases u
          exact hc.2 rfl
        | error e =>
          intro h
          injection h with h
          subst h
          exact hc.1 e rfl

/-- C9: the status code returned by `resize_rgba` and
`resize_rgba_nearest` equals the value latched in the thread-local
diagnostic cell when the call returns, so a subsequent `get_last_error`
returns the null-terminated message corresponding to exactly that status
code. -/
theorem c9_status_latched (sp sw sh dp dw dh : Nat) (src dst : Buf)
    (cell : Int) :
    (∀ r, resize_rgba sp sw sh dp dw dh src dst cell = some r →
      r.2.2 = r.1 ∧ get_last_error r.2.2 = get_last_error r.1) ∧
    (∀ r, resize_rgba_nearest sp sw sh dp dw dh src dst cell = some r →
      r.2.2 = r.1 ∧ get_last_error r.2.2 = get_last_error r.1) := by
  constructor
  · intro r h
    have he := resize_rgba_cell sp sw sh dp dw dh src dst cell r h
    exact ⟨he, by rw [he]⟩
  · intro r h
    have he := resize_rgba_nearest_cell sp sw sh dp dw dh src dst cell r h
    exact ⟨he, by rw [he]⟩

/-- Counterexample for C5: when the computed source row offset lies past
the end of the source slice (row offset 0 against an empty slice, a
1×1 → 1×1 job with a source slice of length 0), the nearest-neighbor loop
core does not skip pixels silently — it aborts the whole call with the
reported error `InvalidSize` (2) and latches it, contradicting the claim
that every out-of-range computed offset, including row offsets, is a
non-reported per-pixel no-op. -/
theorem c5_counterexample :
    (nearestCore 1 1 1 1 0 4 (fun _ => 0) (fun _ => 0) 0).map
        (fun r => (r.1, r.2.2)) =
      some (RESIZE_ERR_INVALID_SIZE, RESIZE_ERR_INVALID_SIZE) ∧
    RESIZE_ERR_INVALID_SIZE ≠ RESIZE_OK := by
  constructor
  · have hstep : nearestRowStep 0 4 (fun _ => 0) (nearestXIndices 1 1) 1 1 1 1 0
        (fun _ => 0) 0 =
        some (Except.error RESIZE_ERR_INVALID_SIZE, (fun _ => 0),
          RESIZE_ERR_INVALID_SIZE) := by
      unfold nearestRowStep
      dsimp only
      rw [show wsub1 1 = 0 from rfl, Nat.min_zero]
      rw [show (checkedMul32 0 1).bind (fun a => checkedMul32 a 4) = some 0 from rfl]
      dsimp only
      unfold nearestRowBody
      rw [if_pos (Nat.le_refl 0)]
    have hloop : loopN (nearestRowStep 0 4 (fun _ => 0) (nearestXIndices 1 1) 1 1 1 1)
        1 (fun _ => 0) 0 =
        some (Except.error RESIZE_ERR_INVALID_SIZE, (fun _ => 0),
          RESIZE_ERR_INVALID_SIZE) := by
      show loopN _ (0 + 1) _ _ = _
      rw [loopN, loopN]
      exact hstep
    unfold nearestCore
    dsimp only
    rw [hloop]
    rfl
  · decide

/-- C5 (amended): in the nearest-neighbor resampler the defensive checks
behave in two different ways — an out-of-range 4-byte-copy offset causes
only that pixel to be skipped (the destination is returned unchanged and
no error is reported), while an out-of-range source row offset aborts the
whole call with `InvalidSize`, latched into the diagnostic cell. -/
theorem c5_defensive_skip_amended :
    (∀ (srcLen dstLen : Nat) (src : Buf) (srcIdx dstIdx : Nat) (dst : Buf),
      ¬(satAdd32 srcIdx 3 < srcLen ∧ satAdd32 dstIdx 3 < dstLen) →
      nearestCopyPixel srcLen dstLen src srcIdx dstIdx dst = some dst) ∧
    (∀ (srcLen dstLen : Nat) (src : Buf) (xIndices : List Nat)
        (dstW y srcYOff : Nat) (dst : Buf) (cell : Int),
      srcLen ≤ srcYOff →
      nearestRowBody srcLen dstLen src xIndices dstW y srcYOff dst cell =
        some (Except.error RESIZE_ERR_INVALID_SIZE, dst,
          RESIZE_ERR_INVALID_SIZE)) := by
  constructor
  · intro srcLen dstLen src srcIdx dstIdx dst h
    unfold nearestCopyPixel
    rw [if_neg h]
  · intro srcLen dstLen src xIndices dstW y srcYOff dst cell h
    unfold nearestRowBody
    rw [if_pos h]

/-- Witness for C5 (amended): a copy whose destination offset has no room
for 4 bytes is skipped, and a row offset at the end of the source slice
aborts with `InvalidSize`. -/
theorem c5_defensive_skip_amended_witness :
    nearestCopyPixel 8 4 (fun i => i) 0 4 (fun _ => 9) = some (fun _ => 9) ∧
    nearestRowBody 8 8 (fun i => i) [0] 1 0 8 (fun _ => 9) 0 =
      some (Except.error RESIZE_ERR_INVALID_SIZE, fun _ => 9,
        RESIZE_ERR_INVALID_SIZE) :=
  ⟨c5_defensive_skip_amended.1 8 4 (fun i => i) 0 4 (fun _ => 9) (by decide),
    c5_defensive_skip_amended.2 8 8 (fun i => i) [0] 1 0 8 (fun _ => 9) 0
      (by decide)⟩

/-- Counterexample for C6: an out-of-range position against a source
slice holding at least one full pixel makes `get_pixel_safe` return the
clamped last pixel of the source (here bytes `(1,2,3,4)`), not the fully
transparent black pixel `(0,0,0,0)` the claim states. -/
theorem c6_counterexample :
    get_pixel_safe 4 (fun i => i + 1) 4 0 = some ⟨1, 2, 3, 4⟩ ∧
    (⟨1, 2, 3, 4⟩ : Px) ≠ pxZero :=
  ⟨rfl, by decide⟩

/-- In-bounds reduction of `get_pixel_safe`: with 4 bytes of room the
four bytes at the computed position are returned. -/
theorem get_pixel_safe_inbounds (srcLen : Nat) (src : Buf) (offset idx : Nat)
    (h : offset + idx + 3 < srcLen) (hL : srcLen ≤ U32_MAX) :
    get_pixel_safe srcLen src offset idx =
      some ⟨src (offset + idx), src (offset + idx + 1),
        src (offset + idx + 2), src (offset + idx + 3)⟩ := by
  unfold U32_MAX at hL
  unfold get_pixel_safe
  rw [checkedAdd32_pos (by unfold USIZE_MOD; omega)]
  dsimp only
  rw [if_neg (by unfold satAdd32 U32_MAX; omega)]
  unfold readPx
  rw [if_neg (by omega)]
  rw [bufGet_pos src (by omega), bufGet_pos src (by omega),
    bufGet_pos src (by omega), bufGet_pos src (by omega)]

/-- C6 (amended): each of the four source fetches of the bilinear
resampler is independently bounds-checked, but an out-of-range computed
position falls back to the transparent black pixel only when the source
slice is shorter than one pixel (or the position arithmetic overflows);
when the source holds at least 4 bytes the fetch is clamped to the last
complete pixel of the source (edge replication) instead. -/
theorem c6_get_pixel_amended (srcLen : Nat) (src : Buf) (offset idx : Nat) :
    (USIZE_MOD ≤ offset + idx →
      get_pixel_safe srcLen src offset idx = some pxZero) ∧
    (offset + idx < USIZE_MOD → srcLen ≤ satAdd32 (offset + idx) 3 →
      4 ≤ srcLen →
      get_pixel_safe srcLen src offset idx =
        some ⟨src (srcLen - 4), src (srcLen - 3), src (srcLen - 2),
          src (srcLen - 1)⟩) ∧
    (offset + idx < USIZE_MOD → srcLen ≤ satAdd32 (offset + idx) 3 →
      srcLen < 4 →
      get_pixel_safe srcLen src offset idx = some pxZero) ∧
    (offset + idx < USIZE_MOD → satAdd32 (offset + idx) 3 < srcLen →
      srcLen ≤ U32_MAX →
      get_pixel_safe srcLen src offset idx =
        some ⟨src (offset + idx), src (offset + idx + 1),
          src (offset + idx + 2), src (offset + idx + 3)⟩) := by
  refine ⟨?_, ?_, ?_, ?_⟩
  · intro h
    unfold get_pixel_safe checkedAdd32
    rw [if_neg (by omega)]
  · intro h1 h2 h3
    unfold get_pixel_safe
    rw [checkedAdd32_pos h1]
    dsimp only
    rw [if_pos h2, if_pos h3]
    unfold readPx
    rw [if_neg (by omega)]
    rw [bufGet_pos src (by omega), bufGet_pos src (by omega),
      bufGet_pos src (by omega), bufGet_pos src (by omega)]
    have e1 : srcLen - 4 + 1 = srcLen - 3 := by omega
    have e2 : srcLen - 4 + 2 = srcLen - 2 := by omega
    have e3 : srcLen - 4 + 3 = srcLen - 1 := by omega
    rw [e1, e2, e3]
  · intro h1 h2 h3
    unfold get_pixel_safe
    rw [checkedAdd32_pos h1]
    dsimp only
    rw [if_pos h2, if_neg (by omega)]
  · intro h1 h2 hL
    exact get_pixel_safe_inbounds srcLen src offset idx
      (by unfold satAdd32 at h2; unfold U32_MAX at h2 hL; omega) hL

/-- Witness for C6 (amended): all four behaviors at concrete inputs —
overflow fallback, clamp to the last pixel, short-buffer fallback and the
ordinary in-bounds read. -/
theorem c6_get_pixel_amended_witness :
    get_pixel_safe 4 (fun i => i + 1) 4294967296 0 = some pxZero ∧
    get_pixel_safe 4 (fun i => i + 1) 6 0 =
      some ⟨1, 2, 3, 4⟩ ∧
    get_pixel_safe 2 (fun i => i + 1) 5 0 = some pxZero ∧
    get_pixel_safe 8 (fun i => i + 1) 0 4 =
      some ⟨5, 6, 7, 8⟩ :=
  ⟨(c6_get_pixel_amended 4 (fun i => i + 1) 4294967296 0).1
      (by unfold USIZE_MOD; omega),
    by
      have h := (c6_get_pixel_amended 4 (fun i => i + 1) 6 0).2.1
        (by unfold USIZE_MOD; omega) (by unfold satAdd32 U32_MAX; omega)
        (by omega)
      simpa using h,
    (c6_get_pixel_amended 2 (fun i => i + 1) 5 0).2.2.1
      (by unfold USIZE_MOD; omega) (by unfold satAdd32 U32_MAX; omega)
      (by omega),
    by
      have h := (c6_get_pixel_amended 8 (fun i => i + 1) 0 4).2.2.2
        (by unfold USIZE_MOD; omega) (by unfold satAdd32 U32_MAX; omega)
        (by unfold U32_MAX; omega)
      simpa using h⟩

/-- Witness for C9 on a concrete call (null source pointer): the returned
status, the latched cell and the selected message coincide. -/
theorem c9_status_latched_witness :
    (RESIZE_ERR_NULL_PTR : Int) = RESIZE_ERR_NULL_PTR ∧
    get_last_error RESIZE_ERR_NULL_PTR = get_last_error RESIZE_ERR_NULL_PTR :=
  (c9_status_latched 0 1 1 8 1 1 (fun _ => 0) (fun _ => 0) 9).1
    (RESIZE_ERR_NULL_PTR, (fun _ => 0), RESIZE_ERR_NULL_PTR) (by rfl)

/-- Floor of a natural number shifted by one half. -/
theorem floor_add_half (x : Nat) : Int.floor ((x : ℚ) + 1/2) = (x : ℤ) := by
  rw [Int.floor_eq_iff]
  constructor
  · push_cast
    linarith
  · push_cast
    linarith

/-- The `as u32` cast of `x + 0.5` is `x` for representable `x`. -/
theorem f32toU32_add_half (x : Nat) (hx : x ≤ 4294967294) :
    f32toU32 ((x : ℚ) + 1/2) = x := by
  unfold f32toU32
  rw [floor_add_half, Int.toNat_natCast]
  unfold U32_MAX
  omega

/-- A positive dimension divided by itself is 1 in the rational model. -/
theorem cast_div_self_q (w : Nat) (hw : 1 ≤ w) : (w : ℚ) / (w : ℚ) = 1 :=
  div_self (Nat.cast_ne_zero.mpr (by omega))

/-- Wrapping `u32` decrement of a positive dimension is the ordinary
predecessor. -/
theorem wsub1_pos (w : Nat) (hw1 : 1 ≤ w) (hw2 : w ≤ U32_MAX) :
    wsub1 w = w - 1 := by
  unfold wsub1 U32_MAX USIZE_MOD
  unfold U32_MAX at hw2
  omega

/-- Nearest-neighbor X LUT at equal source and destination widths: column
`x` samples source byte offset `4 * x`. -/
theorem nearestXIndices_self (w : Nat) (hw1 : 1 ≤ w) (hw2 : w ≤ 65535)
    (x : Nat) (hx : x < w) :
    (nearestXIndices w w).get? x = some (4 * x) := by
  unfold nearestXIndices
  rw [List.get?_map, List.get?_range hx]
  dsimp only [Option.map]
  rw [cast_div_self_q w hw1, mul_one, f32toU32_add_half x (by omega),
    wsub1_pos w hw1 (by unfold U32_MAX; omega)]
  rw [min_eq_left (by omega)]
  rw [Nat.mod_eq_of_lt (by unfold USIZE_MOD; omega)]
  rw [Nat.mul_comm x 4]

/-- The length of the nearest-neighbor X LUT is the destination width. -/
theorem nearestXIndices_length (srcW dstW : Nat) :
    (nearestXIndices srcW dstW).length = dstW := by
  unfold nearestXIndices
  rw [List.length_map, List.length_range]

/-- Index bound used throughout the identity proofs: pixel `(y, x)` is
inside the pixel grid. -/
theorem pixel_index_lt {y h x w : Nat} (hy : y < h) (hx : x < w) :
    y * w + x < h * w := by
  have h1 : (y + 1) * w ≤ h * w := Nat.mul_le_mul_right w (by omega)
  have h2 : (y + 1) * w = y * w + w := by ring
  omega

/-- In-bounds reduction of the guarded 4-byte copy: both guards pass and
the four bytes are copied. -/
theorem nearestCopyPixel_copies (srcLen dstLen : Nat) (src : Buf)
    (srcIdx dstIdx : Nat) (d : Buf)
    (h1 : srcIdx + 3 < srcLen) (h2 : dstIdx + 3 < dstLen)
    (hs : srcLen ≤ U32_MAX) (hd : dstLen ≤ U32_MAX) :
    nearestCopyPixel srcLen dstLen src srcIdx dstIdx d =
      some (bufSet (bufSet (bufSet (bufSet d dstIdx (src srcIdx))
        (dstIdx + 1) (src (srcIdx + 1))) (dstIdx + 2) (src (srcIdx + 2)))
        (dstIdx + 3) (src (srcIdx + 3))) := by
  unfold nearestCopyPixel
  rw [if_pos (by
    unfold satAdd32
    unfold U32_MAX at hs hd ⊢
    omega :
    satAdd32 srcIdx 3 < srcLen ∧ satAdd32 dstIdx 3 < dstLen)]
  rw [if_pos (by omega : srcIdx < srcLen ∧ dstIdx < dstLen)]
  rw [bufGet_pos src (by omega), bufGet_pos src (by omega),
    bufGet_pos src (by omega), bufGet_pos src (by omega)]
  dsimp only
  rw [bufSetChecked_pos _ _ (by omega), Option.some_bind,
    bufSetChecked_pos _ _ (by omega), Option.some_bind,
    bufSetChecked_pos _ _ (by omega), Option.some_bind,
    bufSetChecked_pos _ _ (by omega)]

/-- A 4-byte copy from `src` to the same positions is an interval
overwrite. -/
theorem bufSet4_as_copyInterval (d src : Buf) (i : Nat) :
    bufSet (bufSet (bufSet (bufSet d i (src i)) (i + 1) (src (i + 1)))
        (i + 2) (src (i + 2))) (i + 3) (src (i + 3)) =
      copyInterval i (i + 4) src d := by
  funext j
  unfold bufSet copyInterval
  split_ifs <;> first | rfl | omega | simp_all

/-- Identity shape of the nearest-neighbor column step at equal
dimensions: column `x` of row `y` copies exactly source bytes
`[4*(y*w) + 4*x, 4*(y*w) + 4*x + 4)`. -/
theorem nearestColStep_id (w h : Nat) (src : Buf)
    (hw1 : 1 ≤ w) (hw2 : w ≤ 65535) (hh1 : 1 ≤ h) (hh2 : h ≤ 65535)
    (hpix : w * h ≤ MAX_PIXELS)
    (y : Nat) (hy : y < h) (x : Nat) (hx : x < w) (d : Buf) (c : Int) :
    nearestColStep (4 * (w * h)) (4 * (w * h)) src (nearestXIndices w w) w y
        (4 * (y * w)) x d c =
      some (Except.ok (),
        copyInterval (4 * (y * w) + 4 * x) (4 * (y * w) + 4 * x + 4) src d, c) := by
  have hyx := pixel_index_lt hy hx
  have hcomm : w * h = h * w := Nat.mul_comm w h
  unfold MAX_PIXELS at hpix
  unfold nearestColStep
  rw [if_neg (by rw [nearestXIndices_length]; omega)]
  rw [nearestXIndices_self w hw1 hw2 x hx]
  dsimp only
  rw [checkedAdd32_pos (by unfold USIZE_MOD; omega)]
  dsimp only
  rw [checkedMul32_pos (by unfold USIZE_MOD; omega), Option.some_bind,
    checkedAdd32_pos (by unfold USIZE_MOD; omega), Option.some_bind,
    checkedMul32_pos (by unfold USIZE_MOD; omega)]
  dsimp only
  rw [show (y * w + x) * 4 = 4 * (y * w) + 4 * x from by ring]
  rw [nearestCopyPixel_copies (4 * (w * h)) (4 * (w * h)) src
    (4 * (y * w) + 4 * x) (4 * (y * w) + 4 * x) d (by omega) (by omega)
    (by unfold U32_MAX; omega) (by unfold U32_MAX; omega)]
  dsimp only
  rw [bufSet4_as_copyInterval]

/-- Identity shape of the nearest-neighbor row step at equal dimensions:
row `y` copies exactly source bytes `[4*w*y, 4*w*y + 4*w)`. -/
theorem nearestRowStep_id (w h : Nat) (src : Buf)
    (hw1 : 1 ≤ w) (hw2 : w ≤ 65535) (hh1 : 1 ≤ h) (hh2 : h ≤ 65535)
    (hpix : w * h ≤ MAX_PIXELS)
    (y : Nat) (hy : y < h) (d : Buf) (c : Int) :
    nearestRowStep (4 * (w * h)) (4 * (w * h)) src (nearestXIndices w w)
        w h w h y d c =
      some (Except.ok (),
        copyInterval (0 + 4 * w * y) (0 + 4 * w * y + 4 * w) src d, c) := by
  have hcomm : w * h = h * w := Nat.mul_comm w h
  have hyw : (y + 1) * w ≤ h * w := Nat.mul_le_mul_right w (by omega)
  have hyw2 : (y + 1) * w = y * w + w := by ring
  have hpix2 : w * h ≤ 268435456 := hpix
  unfold MAX_PIXELS at hpix2
  unfold nearestRowStep
  dsimp only
  rw [cast_div_self_q h hh1, mul_one, f32toU32_add_half y (by omega),
    wsub1_pos h hh1 (by unfold U32_MAX; omega)]
  rw [min_eq_left (by omega)]
  rw [checkedMul32_pos (by unfold USIZE_MOD; omega), Option.some_bind,
    checkedMul32_pos (by unfold USIZE_MOD; omega)]
  dsimp only
  unfold nearestRowBody
  rw [if_neg (by omega)]
  rw [show y * w * 4 = 4 * (y * w) from by ring]
  rw [loopN_interval (4 * (y * w)) 4 src w
    (fun x d2 c2 hx => nearestColStep_id w h src hw1 hw2 hh1 hh2 hpix y hy x hx d2 c2)
    d c]
  rw [show (4 : Nat) * (y * w) = 0 + 4 * w * y from by ring]

/-- Identity of the nearest-neighbor loop core at equal dimensions: the
destination is overwritten with exactly the source bytes. -/
theorem nearestCore_id (w h : Nat) (src d : Buf) (cell : Int)
    (hw1 : 1 ≤ w) (hw2 : w ≤ 65535) (hh1 : 1 ≤ h) (hh2 : h ≤ 65535)
    (hpix : w * h ≤ MAX_PIXELS) :
    nearestCore w h w h (4 * (w * h)) (4 * (w * h)) src d cell =
      some (RESIZE_OK, copyInterval 0 (0 + 4 * w * h) src d, cell) := by
  unfold nearestCore
  dsimp only
  rw [loopN_interval 0 (4 * w) src h
    (fun y d2 c2 hy => nearestRowStep_id w h src hw1 hw2 hh1 hh2 hpix y hy d2 c2)
    d cell]

/-- Lengths of the three bilinear LUTs. -/
theorem bilinearX0_length (srcW dstW : Nat) :
    (bilinearX0 srcW dstW).length = dstW := by
  unfold bilinearX0
  rw [List.length_map, List.length_range]

/-- Length of the bilinear `x1` LUT. -/
theorem bilinearX1_length (srcW dstW : Nat) :
    (bilinearX1 srcW dstW).length = dstW := by
  unfold bilinearX1
  rw [List.length_map, List.length_range]

/-- Length of the bilinear weight LUT. -/
theorem bilinearFx_length (srcW dstW : Nat) :
    (bilinearFx srcW dstW).length = dstW := by
  unfold bilinearFx
  rw [List.length_map, List.length_range]

/-- Bilinear `x0` LUT at equal dimensions: column `x` reads byte offset
`4 * x`. -/
theorem bilinearX0_self (w : Nat) (hw1 : 1 ≤ w) (hw2 : w ≤ 65535)
    (x : Nat) (hx : x < w) :
    (bilinearX0 w w).get? x = some (4 * x) := by
  unfold bilinearX0
  rw [List.get?_map, List.get?_range hx]
  dsimp only [Option.map]
  rw [cast_div_self_q w hw1, mul_one]
  rw [show ((x : ℚ) + 1/2 - 1/2) = (x : ℚ) from by ring]
  rw [Int.floor_natCast]
  rw [show i32sat (x : ℤ) = (x : ℤ) from by unfold i32sat; omega]
  rw [show u32toI32 w = (w : ℤ) from by unfold u32toI32; rw [if_pos (by omega)]]
  rw [show Int.toNat (min (max (x : ℤ) 0) ((w : ℤ) - 1)) = x from by omega]
  rw [Nat.mod_eq_of_lt (by unfold USIZE_MOD; omega)]
  rw [Nat.mul_comm x 4]

/-- Bilinear `x1` LUT at equal dimensions: column `x` reads byte offset
`4 * min (x+1) (w-1)`. -/
theorem bilinearX1_self (w : Nat) (hw1 : 1 ≤ w) (hw2 : w ≤ 65535)
    (x : Nat) (hx : x < w) :
    (bilinearX1 w w).get? x = some (4 * min (x + 1) (w - 1)) := by
  unfold bilinearX1
  rw [List.get?_map, List.get?_range hx]
  dsimp only [Option.map]
  rw [cast_div_self_q w hw1, mul_one]
  rw [show ((x : ℚ) + 1/2 - 1/2) = (x : ℚ) from by ring]
  rw [Int.floor_natCast]
  rw [show i32sat (x : ℤ) = (x : ℤ) from by unfold i32sat; omega]
  rw [show u32toI32 w = (w : ℤ) from by unfold u32toI32; rw [if_pos (by omega)]]
  rw [show Int.toNat (min (max (min ((x : ℤ) + 1) ((w : ℤ) - 1)) 0) ((w : ℤ) - 1)) =
      min (x + 1) (w - 1) from by omega]
  rw [Nat.mod_eq_of_lt (by unfold USIZE_MOD; omega)]
  rw [Nat.mul_comm (min (x + 1) (w - 1)) 4]

/-- Bilinear weight LUT at equal dimensions: every weight is 0. -/
theorem bilinearFx_self (w : Nat) (hw1 : 1 ≤ w) (hw2 : w ≤ 65535)
    (x : Nat) (hx : x < w) :
    (bilinearFx w w).get? x = some 0 := by
  unfold bilinearFx
  rw [List.get?_map, List.get?_range hx]
  dsimp only [Option.map]
  rw [cast_div_self_q w hw1, mul_one]
  rw [show ((x : ℚ) + 1/2 - 1/2) = (x : ℚ) from by ring]
  rw [Int.floor_natCast]
  rw [show i32sat (x : ℤ) = (x : ℤ) from by unfold i32sat; omega]
  rw [show ((x : ℚ) - ((x : ℤ) : ℚ)) = 0 from by push_cast; ring]
  rw [show (min (max (0 : ℚ) 0) 1) = 0 from by norm_num]

/-- Interpolation with weight 0 returns its first operand when that
operand is a byte. -/
theorem lerp_zero (a b : Nat) (ha : a < 256) : lerp a b 0 = a := by
  unfold lerp f32toU8trunc
  rw [show ((a : ℚ) * (1 - 0) + (b : ℚ) * 0) = (a : ℚ) from by ring]
  rw [max_eq_left (by positivity)]
  have hle : (a : ℚ) ≤ 255 := by
    have h255 : a ≤ 255 := by omega
    exact_mod_cast h255
  rw [min_eq_left hle]
  rw [Int.floor_natCast, Int.toNat_natCast]
  omega

/-- Every interpolated channel is a byte. -/
theorem lerp_lt_256 (a b : Nat) (t : ℚ) : lerp a b t < 256 := by
  unfold lerp f32toU8trunc
  omega

/-- Channel-wise interpolation with weight 0 returns its first pixel when
that pixel holds bytes. -/
theorem lerpPx_zero (p q : Px)
    (h : p.r < 256 ∧ p.g < 256 ∧ p.b < 256 ∧ p.a < 256) :
    lerpPx p q 0 = p := by
  unfold lerpPx
  rw [lerp_zero _ _ h.1, lerp_zero _ _ h.2.1, lerp_zero _ _ h.2.2.1,
    lerp_zero _ _ h.2.2.2]

/-- Identity shape of the bilinear column step at equal dimensions: with
weight 0 in both axes, column `x` of row `y` writes exactly the source
pixel bytes `[4*(y*w) + 4*x, 4*(y*w) + 4*x + 4)`; the second-row offset
`y1Off` only needs to exist, its pixels are discarded by the weight. -/
theorem bilinearColStep_id (w h : Nat) (src : Buf)
    (hw1 : 1 ≤ w) (hw2 : w ≤ 65535) (hh1 : 1 ≤ h) (hh2 : h ≤ 65535)
    (hpix : w * h ≤ MAX_PIXELS) (hbytes : ∀ i, src i < 256)
    (y : Nat) (hy : y < h) (y1Off : Nat)
    (x : Nat) (hx : x < w) (d : Buf) (c : Int) :
    bilinearColStep (4 * (w * h)) (4 * (w * h)) src (bilinearX0 w w)
        (bilinearX1 w w) (bilinearFx w w) w y (4 * (y * w)) y1Off 0 x d c =
      some (Except.ok (),
        copyInterval (4 * (y * w) + 4 * x) (4 * (y * w) + 4 * x + 4) src d, c) := by
  have hyx := pixel_index_lt hy hx
  have hcomm : w * h = h * w := Nat.mul_comm w h
  have hpix2 : w * h ≤ 268435456 := hpix
  unfold MAX_PIXELS at hpix2
  have hxm : min (x + 1) (w - 1) ≤ w - 1 := min_le_right _ _
  have hyw : y * w + (w - 1) < h * w := pixel_index_lt hy (by omega)
  unfold bilinearColStep
  rw [if_neg (by
    rw [bilinearX0_length, bilinearX1_length, bilinearFx_length]
    omega)]
  rw [bilinearX0_self w hw1 hw2 x hx, bilinearX1_self w hw1 hw2 x hx,
    bilinearFx_self w hw1 hw2 x hx]
  dsimp only
  rw [get_pixel_safe_inbounds (4 * (w * h)) src (4 * (y * w)) (4 * x)
    (by omega) (by unfold U32_MAX; omega)]
  rw [get_pixel_safe_inbounds (4 * (w * h)) src (4 * (y * w))
    (4 * min (x + 1) (w - 1)) (by omega) (by unfold U32_MAX; omega)]
  have hp01 := get_pixel_safe_isSome (4 * (w * h)) src y1Off (4 * x)
    (by unfold U32_MAX; omega)
  have hp11 := get_pixel_safe_isSome (4 * (w * h)) src y1Off
    (4 * min (x + 1) (w - 1)) (by unfold U32_MAX; omega)
  cases h01 : get_pixel_safe (4 * (w * h)) src y1Off (4 * x) with
  | none => rw [h01] at hp01; simp at hp01
  | some p01 =>
    cases h11 : get_pixel_safe (4 * (w * h)) src y1Off (4 * min (x + 1) (w - 1)) with
    | none => rw [h11] at hp11; simp at hp11
    | some p11 =>
      dsimp only
      rw [lerpPx_zero _ _
        ⟨lerp_lt_256 _ _ _, lerp_lt_256 _ _ _, lerp_lt_256 _ _ _, lerp_lt_256 _ _ _⟩]
      rw [lerpPx_zero _ _ ⟨hbytes _, hbytes _, hbytes _, hbytes _⟩]
      rw [checkedMul32_pos (by unfold USIZE_MOD; omega), Option.some_bind,
        checkedAdd32_pos (by unfold USIZE_MOD; omega), Option.some_bind,
        checkedMul32_pos (by unfold USIZE_MOD; omega)]
      dsimp only
      have hsat : satAdd32 ((y * w + x) * 4) 3 = (y * w + x) * 4 + 3 :=
        satAdd32_small (by unfold U32_MAX; omega)
      have hguard : satAdd32 ((y * w + x) * 4) 3 < 4 * (w * h) ∧
          (y * w + x) * 4 < 4 * (w * h) := by
        rw [hsat]
        omega
      rw [if_pos hguard]
      rw [show (y * w + x) * 4 = 4 * (y * w) + 4 * x from by ring]
      rw [bufSetChecked_pos _ _ (by omega), Option.some_bind,
        bufSetChecked_pos _ _ (by omega), Option.some_bind,
        bufSetChecked_pos _ _ (by omega), Option.some_bind,
        bufSetChecked_pos _ _ (by omega)]
      dsimp only
      rw [bufSet4_as_copyInterval]

/-- Identity shape of the bilinear row step at equal dimensions: row `y`
writes exactly source bytes `[4*w*y, 4*w*y + 4*w)`. -/
theorem bilinearRowStep_id (w h : Nat) (src : Buf)
    (hw1 : 1 ≤ w) (hw2 : w ≤ 65535) (hh1 : 1 ≤ h) (hh2 : h ≤ 65535)
    (hpix : w * h ≤ MAX_PIXELS) (hbytes : ∀ i, src i < 256)
    (y : Nat) (hy : y < h) (d : Buf) (c : Int) :
    bilinearRowStep (4 * (w * h)) (4 * (w * h)) src (bilinearX0 w w)
        (bilinearX1 w w) (bilinearFx w w) w h w h y d c =
      some (Except.ok (),
        copyInterval (0 + 4 * w * y) (0 + 4 * w * y + 4 * w) src d, c) := by
  have hcomm : w * h = h * w := Nat.mul_comm w h
  have hpix2 : w * h ≤ 268435456 := hpix
  unfold MAX_PIXELS at hpix2
  have hyw : (y + 1) * w ≤ h * w := Nat.mul_le_mul_right w (by omega)
  have hyw2 : (y + 1) * w = y * w + w := by ring
  have hm1 : min (y + 1) (h - 1) ≤ h - 1 := min_le_right _ _
  have hm2 : min (y + 1) (h - 1) * w ≤ (h - 1) * w :=
    Nat.mul_le_mul_right w hm1
  have hm3 : (h - 1) * w + w = h * w := by
    have e : h - 1 + 1 = h := by omega
    calc (h - 1) * w + w = (h - 1 + 1) * w := by ring
      _ = h * w := by rw [e]
  unfold bilinearRowStep
  dsimp only
  rw [cast_div_self_q h hh1, mul_one]
  rw [show ((y : ℚ) + 1/2 - 1/2) = (y : ℚ) from by ring]
  rw [Int.floor_natCast]
  rw [show i32sat (y : ℤ) = (y : ℤ) from by unfold i32sat; omega]
  rw [show u32toI32 h = (h : ℤ) from by unfold u32toI32; rw [if_pos (by omega)]]
  rw [show ((y : ℚ) - ((y : ℤ) : ℚ)) = 0 from by push_cast; ring]
  rw [show (min (max (0 : ℚ) 0) 1) = 0 from by norm_num]
  rw [show Int.toNat (min (max (y : ℤ) 0) ((h : ℤ) - 1)) = y from by omega]
  rw [show Int.toNat (min (max (min ((y : ℤ) + 1) ((h : ℤ) - 1)) 0) ((h : ℤ) - 1)) =
      min (y + 1) (h - 1) from by omega]
  rw [checkedMul32_pos (by unfold USIZE_MOD; omega), Option.some_bind,
    checkedMul32_pos (by unfold USIZE_MOD; omega)]
  dsimp only
  rw [checkedMul32_pos (by unfold USIZE_MOD; omega), Option.some_bind,
    checkedMul32_pos (by unfold USIZE_MOD; omega)]
  dsimp only
  rw [if_neg (by omega)]
  rw [show y * w * 4 = 4 * (y * w) from by ring]
  rw [loopN_interval (4 * (y * w)) 4 src w
    (fun x d2 c2 hx => bilinearColStep_id w h src hw1 hw2 hh1 hh2 hpix hbytes
      y hy (min (y + 1) (h - 1) * w * 4) x hx d2 c2) d c]
  rw [show (4 : Nat) * (y * w) = 0 + 4 * w * y from by ring]

/-- Identity of the bilinear loop core at equal dimensions. -/
theorem bilinearCore_id (w h : Nat) (src d : Buf) (cell : Int)
    (hw1 : 1 ≤ w) (hw2 : w ≤ 65535) (hh1 : 1 ≤ h) (hh2 : h ≤ 65535)
    (hpix : w * h ≤ MAX_PIXELS) (hbytes : ∀ i, src i < 256) :
    bilinearCore w h w h (4 * (w * h)) (4 * (w * h)) src d cell =
      some (RESIZE_OK, copyInterval 0 (0 + 4 * w * h) src d, cell) := by
  unfold bilinearCore
  dsimp only
  rw [loopN_interval 0 (4 * w) src h
    (fun y d2 c2 hy => bilinearRowStep_id w h src hw1 hw2 hh1 hh2 hpix hbytes
      y hy d2 c2) d cell]

/-- At equal source and destination dimensions the selector always picks
bilinear. -/
theorem selector_same_dims_false (w h : Nat) :
    should_use_nearest_neighbor w h w h = false := by
  unfold should_use_nearest_neighbor
  dsimp only
  rw [if_pos ⟨Nat.lt_irrefl w, Nat.lt_irrefl h⟩]

/-- C3: resizing a valid image to its own dimensions is the identity for
both entry points — `resize_rgba_nearest` copies the source byte-for-byte
into the destination, and `resize_rgba`, which selects the bilinear path
for equal dimensions, also reproduces the source exactly (the
interpolation weights `fx = fy = 0` make every rounding error zero, so
"at most floating-point rounding error" holds with error 0). -/
theorem c3_identity (sp w h dp : Nat) (src dst : Buf) (cell : Int)
    (hsp : sp ≠ 0) (hdp : dp ≠ 0) (hsa : sp % 4 = 0) (hda : dp % 4 = 0)
    (hw1 : 1 ≤ w) (hh1 : 1 ≤ h)
    (hw2 : w ≤ MAX_DIMENSION) (hh2 : h ≤ MAX_DIMENSION)
    (hpix : w * h ≤ MAX_PIXELS)
    (hov : ¬(sp < satAdd32 dp (w * h * 4) ∧ dp < satAdd32 sp (w * h * 4)))
    (hbytes : ∀ i, src i < 256) :
    (∃ dn, resize_rgba_nearest sp w h dp w h src dst cell =
        some (RESIZE_OK, dn, RESIZE_OK) ∧
      ∀ i, i < w * h * 4 → dn i = src i) ∧
    (should_use_nearest_neighbor w h w h = false ∧
      ∃ db, resize_rgba sp w h dp w h src dst cell =
        some (RESIZE_OK, db, RESIZE_OK) ∧
      ∀ i, i < w * h * 4 → db i = src i) := by
  have hval := validate_params_ok cell hsp hdp hsa hda hw1 hh1 hw1 hh1
    hw2 hh2 hw2 hh2 hpix hpix hov
  have hw65 : w ≤ 65535 := by unfold MAX_DIMENSION at hw2; exact hw2
  have hh65 : h ≤ 65535 := by unfold MAX_DIMENSION at hh2; exact hh2
  have he : 0 + 4 * w * h = w * h * 4 := by ring
  constructor
  · refine ⟨copyInterval 0 (0 + 4 * w * h) src dst, ?_, ?_⟩
    · unfold resize_rgba_nearest
      rw [hval]
      dsimp only
      rw [show w * h * 4 = 4 * (w * h) from by ring]
      exact nearestCore_id w h src dst RESIZE_OK hw1 hw65 hh1 hh65 hpix
    · intro i hi
      unfold copyInterval
      rw [if_pos (by omega)]
  · refine ⟨selector_same_dims_false w h,
      copyInterval 0 (0 + 4 * w * h) src dst, ?_, ?_⟩
    · unfold resize_rgba
      rw [hval]
      dsimp only
      rw [selector_same_dims_false w h]
      rw [if_neg Bool.false_ne_true]
      rw [show w * h * 4 = 4 * (w * h) from by ring]
      exact bilinearCore_id w h src dst RESIZE_OK hw1 hw65 hh1 hh65 hpix hbytes
    · intro i hi
      unfold copyInterval
      rw [if_pos (by omega)]

/-- Witness for C3 at a concrete valid 1×1 resize of a solid source. -/
theorem c3_identity_witness :
    (∃ dn, resize_rgba_nearest 4 1 1 12 1 1 (fun _ => 7) (fun _ => 0) 9 =
        some (RESIZE_OK, dn, RESIZE_OK) ∧
      ∀ i, i < 1 * 1 * 4 → dn i = (fun _ => 7) i) ∧
    (should_use_nearest_neighbor 1 1 1 1 = false ∧
      ∃ db, resize_rgba 4 1 1 12 1 1 (fun _ => 7) (fun _ => 0) 9 =
        some (RESIZE_OK, db, RESIZE_OK) ∧
      ∀ i, i < 1 * 1 * 4 → db i = (fun _ => 7) i) :=
  c3_identity 4 1 1 12 (fun _ => 7) (fun _ => 0) 9 (by decide) (by decide)
    (by decide) (by decide) (by decide) (by decide) (by decide) (by decide)
    (by decide) (by decide) (fun i => (by decide : (7 : Nat) < 256))
